import Mathlib

/-!
Shallow embedding of the BlackmagicMedia plugin's frame ingest and buffering
pipeline, translated from
`Source/BlackmagicMedia/Private/Player/BlackmagicMediaPlayer.cpp`.

Conventions of the embedding:
* machine integers (`int32`, `uint32`) are modelled as `Int` / `Nat` (none of the
  quantities involved can overflow in the properties below);
* `double` wall-clock and presentation times are modelled as `Rat`;
* raw buffer pointers are modelled by a presence flag (`Bool`) together with the
  size/geometry fields the code reads;
* `UE_LOG` calls are pure logging and have no modelled effect;
* the vendor SDK and the host engine are external collaborators: their results
  (registration success, platform clock, wall clock) enter as parameters.
-/

set_option maxHeartbeats 1000000

namespace BlackmagicMedia

/-- `EMediaState` of the host media framework (the states used by the player). -/
inductive EMediaState
  | Closed
  | Error
  | Paused
  | Playing
  | Preparing
  | Stopped
  deriving DecidableEq, Repr

/-- The media lifecycle events the player sends to the host `IMediaEventSink`. -/
inductive EMediaEvent
  | TracksChanged
  | MediaOpened
  | PlaybackResumed
  | MediaOpenFailed
  deriving DecidableEq, Repr

/-- Host `FFrameRate`: a frame rate as a numerator/denominator pair. -/
structure FFrameRate where
  Numerator : Int
  Denominator : Int
  deriving DecidableEq, Repr

/-- `FFrameRate::AsInterval`: seconds per frame. -/
def FFrameRate.AsInterval (r : FFrameRate) : Rat :=
  (r.Denominator : Rat) / (r.Numerator : Rat)

/-- `FFrameRate::AsDecimal`: frames per second. -/
def FFrameRate.AsDecimal (r : FFrameRate) : Rat :=
  (r.Numerator : Rat) / (r.Denominator : Rat)

/-- Host `FTimecode`: hours/minutes/seconds/frame plus the drop-frame flag. -/
structure FTimecode where
  Hours : Int
  Minutes : Int
  Seconds : Int
  Frames : Int
  bDropFrameFormat : Bool
  deriving DecidableEq, Repr

/-- External engine predicate `FTimecode::IsDropFormatTimecodeSupported`:
drop-frame timecode exists exactly for the NTSC rates 30000/1001 and 60000/1001.
The theorems below do not depend on its value. -/
def FTimecode.IsDropFormatTimecodeSupported (r : FFrameRate) : Bool :=
  (r.Numerator == 30000 && r.Denominator == 1001) ||
  (r.Numerator == 60000 && r.Denominator == 1001)

/-- External engine conversion `FTimecode::ToTimespan`: the timespan of a timecode
at the given frame rate, modelled as its linear frame count times the frame
interval (the engine's drop-frame correction is irrelevant to the theorems below,
none of which constrain this value). -/
def FTimecode.ToTimespan (tc : FTimecode) (r : FFrameRate) : Rat :=
  ((((tc.Hours * 60 + tc.Minutes) * 60 + tc.Seconds : Int) : Rat) * r.AsDecimal
    + (tc.Frames : Rat)) * r.AsInterval

/-- Audio track format reported through `IMediaTracks` (`FMediaAudioTrackFormat`). -/
structure FMediaAudioTrackFormat where
  BitsPerSample : Nat
  NumChannels : Nat
  SampleRate : Nat
  deriving DecidableEq, Repr

/-- Texture sample formats used by the player (`EMediaTextureSampleFormat`). -/
inductive EMediaTextureSampleFormat
  | CharBGRA
  | CharUYVY
  | YUVv210
  deriving DecidableEq, Repr

namespace BlackmagicDesign

/-- Vendor SDK field dominance of a picture. The player only distinguishes
`Interlaced` from everything else. -/
inductive EFieldDominance
  | Unknown
  | Progressive
  | Interlaced
  | ProgressiveSegmentedFrame
  deriving DecidableEq, Repr

/-- Vendor SDK pixel formats requested by the player. -/
inductive EPixelFormat
  | pf_8Bits
  | pf_10Bits
  deriving DecidableEq, Repr

/-- Vendor SDK timecode formats used by the player. -/
inductive ETimecodeFormat
  | TCF_None
  | TCF_LTC
  | TCF_VITC1
  deriving DecidableEq, Repr

/-- Vendor SDK raw timecode (`BlackmagicDesign::FTimecode`). -/
structure FTimecode where
  Hours : Int
  Minutes : Int
  Seconds : Int
  Frames : Int
  deriving DecidableEq, Repr

/-- Vendor SDK channel identification (`BlackmagicDesign::FChannelInfo`). -/
structure FChannelInfo where
  DeviceIndex : Int
  deriving DecidableEq, Repr

/-- Vendor SDK channel options built by `FBlackmagicMediaPlayer::Open`
(`BlackmagicDesign::FInputChannelOptions`). -/
structure FInputChannelOptions where
  CallbackPriority : Int
  bReadVideo : Bool
  DisplayMode : Int
  PixelFormat : EPixelFormat
  TimecodeFormat : ETimecodeFormat
  bReadAudio : Bool
  NumberOfAudioChannel : Int
  deriving DecidableEq, Repr

/-- Vendor SDK format description delivered by `OnFrameFormatChanged`
(`BlackmagicDesign::FFormatInfo`); the player only logs it. -/
structure FFormatInfo where
  DisplayMode : Int
  deriving DecidableEq, Repr

/-- `IInputEventCallback::FFrameReceivedInfo`: one hardware frame event.
The raw `AudioBuffer` / `VideoBuffer` pointers are modelled as presence flags
next to the size and geometry fields the player reads. -/
structure FFrameReceivedInfo where
  bHasInputSource : Bool
  AudioBuffer : Bool
  AudioBufferSize : Nat
  NumberOfAudioChannel : Nat
  AudioRate : Nat
  bHaveTimecode : Bool
  Timecode : FTimecode
  VideoBuffer : Bool
  VideoPitch : Nat
  VideoWidth : Nat
  VideoHeight : Nat
  FieldDominance : EFieldDominance
  PixelFormat : EPixelFormat
  deriving DecidableEq, Repr

end BlackmagicDesign

/-- A decoded PCM block as queued by the player (`FBlackmagicMediaAudioSample`). -/
structure FBlackmagicMediaAudioSample where
  NumSamples : Nat
  NumChannels : Nat
  SampleRate : Nat
  Time : Rat
  Timecode : Option FTimecode
  deriving DecidableEq, Repr

/-- Modelled from the spec: `FBlackmagicMediaAudioSample::Initialize` lives in
`BlackmagicMediaAudioSample.h`, which is part of this repository but not under
`src/`. Per the spec it initializes the pooled sample "from the interleaved
buffer (sample count = byte length / 4, fixed 32-bit depth)" and tags it with
channel count, sample rate, time and timecode; it is modelled as always
succeeding (the buffer pointer is non-null on this path). -/
def FBlackmagicMediaAudioSample.Initialize
    (InNumberOfSamples InNumberOfChannels InSampleRate : Nat)
    (InTime : Rat) (InTimecode : Option FTimecode) :
    Option FBlackmagicMediaAudioSample :=
  some { NumSamples := InNumberOfSamples
         NumChannels := InNumberOfChannels
         SampleRate := InSampleRate
         Time := InTime
         Timecode := InTimecode }

/-- A decoded picture as queued by the player (`FBlackmagicMediaTextureSample`).
`evenOddLine = none` marks a progressive sample; `some true` / `some false` mark
the even / odd field of an interlaced frame. -/
structure FBlackmagicMediaTextureSample where
  evenOddLine : Option Bool
  BufferSize : Nat
  Stride : Nat
  Width : Nat
  Height : Nat
  SampleFormat : EMediaTextureSampleFormat
  Time : Rat
  FrameRate : FFrameRate
  Timecode : Option FTimecode
  bIsSRGBInput : Bool
  deriving DecidableEq, Repr

/-- Modelled from the spec: `FBlackmagicMediaTextureSample::Initialize` lives in
`BlackmagicMediaTextureSample.h`, part of this repository but not under `src/`.
Per the spec it records the buffer, geometry, format, time, frame rate, timecode
and sRGB flag of a progressive picture; modelled as always succeeding (the
buffer pointer is non-null on this path). -/
def FBlackmagicMediaTextureSample.Initialize
    (InBufferSize InStride InWidth InHeight : Nat)
    (InSampleFormat : EMediaTextureSampleFormat)
    (InTime : Rat) (InFrameRate : FFrameRate)
    (InTimecode : Option FTimecode) (bInIsSRGBInput : Bool) :
    Option FBlackmagicMediaTextureSample :=
  some { evenOddLine := none
         BufferSize := InBufferSize
         Stride := InStride
         Width := InWidth
         Height := InHeight
         SampleFormat := InSampleFormat
         Time := InTime
         FrameRate := InFrameRate
         Timecode := InTimecode
         bIsSRGBInput := bInIsSRGBInput }

/-- Modelled from the spec: `FBlackmagicMediaTextureSample::InitializeWithEvenOddLine`
(same header, not under `src/`). Per the spec it records one field ("even"/"odd")
of an interlaced picture; modelled as always succeeding. -/
def FBlackmagicMediaTextureSample.InitializeWithEvenOddLine
    (bUseEvenLine : Bool)
    (InBufferSize InStride InWidth InHeight : Nat)
    (InSampleFormat : EMediaTextureSampleFormat)
    (InTime : Rat) (InFrameRate : FFrameRate)
    (InTimecode : Option FTimecode) (bInIsSRGBInput : Bool) :
    Option FBlackmagicMediaTextureSample :=
  some { evenOddLine := some bUseEvenLine
         BufferSize := InBufferSize
         Stride := InStride
         Width := InWidth
         Height := InHeight
         SampleFormat := InSampleFormat
         Time := InTime
         FrameRate := InFrameRate
         Timecode := InTimecode
         bIsSRGBInput := bInIsSRGBInput }

/-- The state of `FBlackmagicMediaPlayer` (and of its `FMediaIOCorePlayerBase`
base and the `FMediaIOCoreSamples` queues) that the callback object and the
facade read or write: the audio/video sample queues (oldest first; `AddAudio` /
`AddVideo` append, `PopAudio` / `PopVideo` remove the head), the drop-logging
and time-synchronization flags, the active video frame rate, the consumer-side
`CurrentState`, the last reported audio track format, and the process-wide
console flag `bBlackmagicWriteOutputRawDataCmdEnable` (line 34). -/
structure MediaPlayerData where
  AudioSamples : List FBlackmagicMediaAudioSample
  VideoSamples : List FBlackmagicMediaTextureSample
  bVerifyFrameDropCount : Bool
  bUseTimeSynchronization : Bool
  VideoFrameRate : FFrameRate
  CurrentState : EMediaState
  AudioTrackFormat : FMediaAudioTrackFormat
  bBlackmagicWriteOutputRawDataCmdEnable : Bool
  deriving DecidableEq, Repr

namespace BlackmagicMediaPlayerHelpers

/-- `BlackmagicMediaPlayerHelpers::ToleratedExtraMaxBufferCount` (line 43):
the tolerance factor between the configured soft maximum and the hard capacity
of each sample queue. -/
def ToleratedExtraMaxBufferCount : Int := 2

end BlackmagicMediaPlayerHelpers

/-- The mutable state of `FBlackmagicMediaPlayerEventCallback` (lines 45-412).
`MediaPlayer` models the back-pointer to the player as a presence flag;
`BlackmagicIdendifier` (the source's spelling) is modelled by its `IsValid()`
bit. The atomic drop counters are plain `Int` here: the embedding is
sequential, interleavings are outside its scope. -/
structure FBlackmagicMediaPlayerEventCallback where
  RefCounter : Int
  BlackmagicIdendifier : Bool
  ChannelInfo : BlackmagicDesign.FChannelInfo
  MediaPlayer : Bool
  MediaState : EMediaState
  PreviousTimecode : BlackmagicDesign.FTimecode
  PrevousTimespan : Rat
  bEncodeTimecodeInTexel : Bool
  LastBitsPerSample : Nat
  LastNumChannels : Nat
  LastSampleRate : Nat
  AudioFrameDropCount : Int
  MetadataFrameDropCount : Int
  VideoFrameDropCount : Int
  MaxNumAudioFrameBuffer : Int
  MaxNumVideoFrameBuffer : Int
  LastHasFrameTime : Rat
  bReceivedValidFrame : Bool
  bIsTimecodeExpected : Bool
  bHasWarnedMissingTimecode : Bool
  bIsSRGBInput : Bool
  deriving DecidableEq, Repr

namespace FBlackmagicMediaPlayerEventCallback

/-- The constructor (lines 48-67). The two `MaxNum*FrameBuffer` fields are not
initialized by the C++ constructor (they are set by `Initialize`); the model
starts them at 0. -/
def construct (InMediaPlayer : Bool)
    (InChannelInfo : BlackmagicDesign.FChannelInfo) :
    FBlackmagicMediaPlayerEventCallback :=
  { RefCounter := 0
    BlackmagicIdendifier := false
    ChannelInfo := InChannelInfo
    MediaPlayer := InMediaPlayer
    MediaState := EMediaState.Closed
    PreviousTimecode := ⟨0, 0, 0, 0⟩
    PrevousTimespan := 0
    bEncodeTimecodeInTexel := false
    LastBitsPerSample := 0
    LastNumChannels := 0
    LastSampleRate := 0
    AudioFrameDropCount := 0
    MetadataFrameDropCount := 0
    VideoFrameDropCount := 0
    MaxNumAudioFrameBuffer := 0
    MaxNumVideoFrameBuffer := 0
    LastHasFrameTime := 0
    bReceivedValidFrame := false
    bIsTimecodeExpected := false
    bHasWarnedMissingTimecode := false
    bIsSRGBInput := false }

/-- `Initialize` (lines 69-83). `RegisterCallbackForChannel` is the vendor SDK;
whether the identifier it returns is valid enters as `registrationSucceeds`. -/
def Initialize (cb : FBlackmagicMediaPlayerEventCallback)
    (InChannelOptions : BlackmagicDesign.FInputChannelOptions)
    (bInEncodeTimecodeInTexel : Bool)
    (InMaxNumAudioFrameBuffer InMaxNumVideoFrameBuffer : Int)
    (bInIsSRGBInput : Bool)
    (registrationSucceeds : Bool) :
    FBlackmagicMediaPlayerEventCallback × Bool :=
  let cb := { cb with RefCounter := cb.RefCounter + 1 }
  let cb := { cb with
    bEncodeTimecodeInTexel := bInEncodeTimecodeInTexel
    MaxNumAudioFrameBuffer := InMaxNumAudioFrameBuffer
    MaxNumVideoFrameBuffer := InMaxNumVideoFrameBuffer
    bIsTimecodeExpected :=
      decide (InChannelOptions.TimecodeFormat ≠ BlackmagicDesign.ETimecodeFormat.TCF_None)
    bIsSRGBInput := bInIsSRGBInput }
  let cb := { cb with BlackmagicIdendifier := registrationSucceeds }
  let cb := { cb with
    MediaState := if cb.BlackmagicIdendifier then EMediaState.Preparing else EMediaState.Error }
  (cb, cb.BlackmagicIdendifier)

/-- The observable teardown steps of `Uninitialize` / `Close`: the SDK
unregistration call and the release of the callback object's reference. -/
inductive TeardownAction
  | UnregisterChannel
  | ReleaseCallback
  deriving DecidableEq, Repr

/-- `Uninitialize` (lines 85-98): under the callback lock it clears the
back-reference first, then (if registered) marks the state `Stopped` and
unregisters, and finally drops its own reference. -/
def Uninitialize (cb : FBlackmagicMediaPlayerEventCallback) :
    FBlackmagicMediaPlayerEventCallback × List TeardownAction :=
  let cb := { cb with MediaPlayer := false }
  let r :=
    if cb.BlackmagicIdendifier then
      ({ cb with MediaState := EMediaState.Stopped, BlackmagicIdendifier := false },
       [TeardownAction.UnregisterChannel])
    else
      (cb, ([] : List TeardownAction))
  ({ r.1 with RefCounter := r.1.RefCounter - 1 }, r.2 ++ [TeardownAction.ReleaseCallback])

/-- `GetMediaState` (line 100). -/
def GetMediaState (cb : FBlackmagicMediaPlayerEventCallback) : EMediaState :=
  cb.MediaState

/-- `UpdateAudioTrackFormat` (lines 102-107). -/
def UpdateAudioTrackFormat (cb : FBlackmagicMediaPlayerEventCallback) :
    FMediaAudioTrackFormat :=
  { BitsPerSample := cb.LastBitsPerSample
    NumChannels := cb.LastNumChannels
    SampleRate := cb.LastSampleRate }

/-- Result of `VerifyFrameDropCount_GameThread`: the updated callback and player
state, and the final values of the local `AudioOverflowCount` /
`VideoOverflowCount` variables, which are the counts the warnings report. -/
structure FVerifyFrameDropResult where
  callback : FBlackmagicMediaPlayerEventCallback
  player : MediaPlayerData
  AudioOverflowCount : Int
  VideoOverflowCount : Int
  deriving DecidableEq, Repr

/-- `VerifyFrameDropCount_GameThread` (lines 109-139): pop each queue down to
its configured soft maximum, then, if drop logging is enabled, atomically read
and zero both drop counters and add them to the popped counts. -/
def VerifyFrameDropCount_GameThread (cb : FBlackmagicMediaPlayerEventCallback)
    (pl : MediaPlayerData) : FVerifyFrameDropResult :=
  let AudioOverflowCount : Int :=
    max ((pl.AudioSamples.length : Int) - cb.MaxNumAudioFrameBuffer) 0
  let pl := { pl with AudioSamples := pl.AudioSamples.drop AudioOverflowCount.toNat }
  let VideoOverflowCount : Int :=
    max ((pl.VideoSamples.length : Int) - cb.MaxNumVideoFrameBuffer) 0
  let pl := { pl with VideoSamples := pl.VideoSamples.drop VideoOverflowCount.toNat }
  if pl.bVerifyFrameDropCount then
    let AudioOverflowCount := AudioOverflowCount + cb.AudioFrameDropCount
    let VideoOverflowCount := VideoOverflowCount + cb.VideoFrameDropCount
    let cb := { cb with AudioFrameDropCount := 0, VideoFrameDropCount := 0 }
    ⟨cb, pl, AudioOverflowCount, VideoOverflowCount⟩
  else
    ⟨cb, pl, AudioOverflowCount, VideoOverflowCount⟩

/-- `OnInitializationCompleted` (lines 156-159). -/
def OnInitializationCompleted (cb : FBlackmagicMediaPlayerEventCallback)
    (bSuccess : Bool) : FBlackmagicMediaPlayerEventCallback :=
  { cb with MediaState := if bSuccess then EMediaState.Playing else EMediaState.Error }

/-- `OnShutdownCompleted` (lines 161-164). -/
def OnShutdownCompleted (cb : FBlackmagicMediaPlayerEventCallback) :
    FBlackmagicMediaPlayerEventCallback :=
  { cb with MediaState := EMediaState.Closed }

/-- `OnFrameFormatChanged` (lines 365-369): log and transition to `Error`. -/
def OnFrameFormatChanged (cb : FBlackmagicMediaPlayerEventCallback)
    (NewFormat : BlackmagicDesign.FFormatInfo) :
    FBlackmagicMediaPlayerEventCallback :=
  { cb with MediaState := EMediaState.Error }

/-- `OnInterlacedOddFieldEvent` (lines 371-374): empty body. -/
def OnInterlacedOddFieldEvent (cb : FBlackmagicMediaPlayerEventCallback) :
    FBlackmagicMediaPlayerEventCallback :=
  cb

/-- `OnFrameReceived`, lines 177-191: the "no signal" heartbeat taken when the
event reports no input source and carries no audio. `CurrentTime` is
`FApp::GetCurrentTime()`, `TimeAllowedToConnect` is the 2-second grace period. -/
def noSignalHeartbeat (cb : FBlackmagicMediaPlayerEventCallback)
    (CurrentTime : Rat) : FBlackmagicMediaPlayerEventCallback :=
  let TimeAllowedToConnect : Rat := 2
  let cb :=
    if cb.LastHasFrameTime < (1 : Rat) / 10 then
      { cb with LastHasFrameTime := CurrentTime }
    else cb
  if cb.bReceivedValidFrame = true ∨ TimeAllowedToConnect < CurrentTime - cb.LastHasFrameTime then
    { cb with MediaState := EMediaState.Error }
  else cb

/-- Result of the timecode-decoding block of `OnFrameReceived` (lines 199-235). -/
structure FDecodeTimecodeResult where
  callback : FBlackmagicMediaPlayerEventCallback
  DecodedTimecode : Option FTimecode
  DecodedTimecodeF2 : Option FTimecode
  DecodedTime : Rat
  DecodedTimeF2 : Rat
  deriving DecidableEq, Repr

/-- `OnFrameReceived`, lines 199-235: decode the event's timecode (if any),
derive the odd-field timecode as the decoded one plus one frame, and, when time
synchronization is enabled, replace both presentation times by the timecode's
timespan (and that plus one frame interval). The out-of-range frame-number
check (lines 205-209) and the timecode log (lines 225-229) only log. -/
def decodeTimecode (cb : FBlackmagicMediaPlayerEventCallback)
    (pl : MediaPlayerData) (InFrameInfo : BlackmagicDesign.FFrameReceivedInfo)
    (DecodedTime DecodedTimeF2 : Rat) : FDecodeTimecodeResult :=
  if InFrameInfo.bHaveTimecode = true then
    let DecodedTimecode : FTimecode :=
      ⟨InFrameInfo.Timecode.Hours, InFrameInfo.Timecode.Minutes,
       InFrameInfo.Timecode.Seconds, InFrameInfo.Timecode.Frames,
       FTimecode.IsDropFormatTimecodeSupported pl.VideoFrameRate⟩
    let DecodedTimecodeF2 : FTimecode :=
      { DecodedTimecode with Frames := DecodedTimecode.Frames + 1 }
    let TimecodeDecodedTime : Rat := DecodedTimecode.ToTimespan pl.VideoFrameRate
    let times : Rat × Rat :=
      if pl.bUseTimeSynchronization = true then
        (TimecodeDecodedTime, TimecodeDecodedTime + pl.VideoFrameRate.AsInterval)
      else (DecodedTime, DecodedTimeF2)
    let cb := { cb with
      PreviousTimecode := InFrameInfo.Timecode
      PrevousTimespan := TimecodeDecodedTime }
    ⟨cb, some DecodedTimecode, some DecodedTimecodeF2, times.1, times.2⟩
  else
    let cb :=
      if cb.bHasWarnedMissingTimecode = false ∧ cb.bIsTimecodeExpected = true then
        { cb with bHasWarnedMissingTimecode := true }
      else cb
    ⟨cb, none, none, DecodedTime, DecodedTimeF2⟩

/-- `OnFrameReceived`, lines 237-263: audio decoding. If the audio queue is at
the tolerated capacity, count a drop (only when drop logging is enabled);
otherwise acquire, initialize and enqueue a pooled audio sample and remember
the last audio track format. `sizeof(int32)` is 4, so `AudioBufferSize / 4`
samples are recorded and `LastBitsPerSample` is set to 4 (line 258). -/
def processAudioBuffer (cb : FBlackmagicMediaPlayerEventCallback)
    (pl : MediaPlayerData) (InFrameInfo : BlackmagicDesign.FFrameReceivedInfo)
    (DecodedTime : Rat) (DecodedTimecode : Option FTimecode) :
    FBlackmagicMediaPlayerEventCallback × MediaPlayerData :=
  if InFrameInfo.AudioBuffer = true then
    if (pl.AudioSamples.length : Int) ≥
        cb.MaxNumAudioFrameBuffer * BlackmagicMediaPlayerHelpers.ToleratedExtraMaxBufferCount then
      if pl.bVerifyFrameDropCount = true then
        ({ cb with AudioFrameDropCount := cb.AudioFrameDropCount + 1 }, pl)
      else (cb, pl)
    else
      match FBlackmagicMediaAudioSample.Initialize (InFrameInfo.AudioBufferSize / 4)
          InFrameInfo.NumberOfAudioChannel InFrameInfo.AudioRate
          DecodedTime DecodedTimecode with
      | some AudioSample =>
        ({ cb with
            LastBitsPerSample := 4
            LastSampleRate := InFrameInfo.AudioRate
            LastNumChannels := InFrameInfo.NumberOfAudioChannel },
         { pl with AudioSamples := pl.AudioSamples ++ [AudioSample] })
      | none => (cb, pl)
  else (cb, pl)

/-- `OnFrameReceived`, lines 278-294: the sample format selected for the
received pixel format (the `switch`'s `CharBGRA` default arm is unreachable for
the two formats the player ever requests). -/
def sampleFormatOf : BlackmagicDesign.EPixelFormat → EMediaTextureSampleFormat
  | BlackmagicDesign.EPixelFormat.pf_8Bits => EMediaTextureSampleFormat.CharUYVY
  | BlackmagicDesign.EPixelFormat.pf_10Bits => EMediaTextureSampleFormat.YUVv210

/-- `OnFrameReceived`, lines 265-361: video decoding. The occupancy check adds
one extra slot for the odd field of an interlaced picture; a full queue counts
a drop (only when drop logging is enabled); otherwise one progressive sample,
or an even and an odd field sample, are initialized and enqueued. The raw-dump
console command (lines 296-300) dumps the buffer to a file and resets the
global flag; the timecode texel burn-in (lines 304-309) mutates pixels only. -/
def processVideoBuffer (cb : FBlackmagicMediaPlayerEventCallback)
    (pl : MediaPlayerData) (InFrameInfo : BlackmagicDesign.FFrameReceivedInfo)
    (DecodedTime DecodedTimeF2 : Rat)
    (DecodedTimecode DecodedTimecodeF2 : Option FTimecode) :
    FBlackmagicMediaPlayerEventCallback × MediaPlayerData :=
  if InFrameInfo.VideoBuffer = true then
    let bIsProgressivePicture : Bool :=
      decide (InFrameInfo.FieldDominance ≠ BlackmagicDesign.EFieldDominance.Interlaced)
    let NumVideoSamples : Int :=
      (pl.VideoSamples.length : Int) + (if bIsProgressivePicture = false then 1 else 0)
    if NumVideoSamples ≥
        cb.MaxNumVideoFrameBuffer * BlackmagicMediaPlayerHelpers.ToleratedExtraMaxBufferCount then
      if pl.bVerifyFrameDropCount = true then
        ({ cb with VideoFrameDropCount := cb.VideoFrameDropCount + 1 }, pl)
      else (cb, pl)
    else
      let SampleFormat := sampleFormatOf InFrameInfo.PixelFormat
      let pl :=
        if pl.bBlackmagicWriteOutputRawDataCmdEnable = true then
          { pl with bBlackmagicWriteOutputRawDataCmdEnable := false }
        else pl
      if bIsProgressivePicture = true then
        match FBlackmagicMediaTextureSample.Initialize
            (InFrameInfo.VideoPitch * InFrameInfo.VideoHeight) InFrameInfo.VideoPitch
            InFrameInfo.VideoWidth InFrameInfo.VideoHeight SampleFormat
            DecodedTime pl.VideoFrameRate DecodedTimecode cb.bIsSRGBInput with
        | some TextureSample =>
          (cb, { pl with VideoSamples := pl.VideoSamples ++ [TextureSample] })
        | none => (cb, pl)
      else
        let pl :=
          match FBlackmagicMediaTextureSample.InitializeWithEvenOddLine true
              (InFrameInfo.VideoPitch * InFrameInfo.VideoHeight) InFrameInfo.VideoPitch
              InFrameInfo.VideoWidth InFrameInfo.VideoHeight SampleFormat
              DecodedTime pl.VideoFrameRate DecodedTimecode cb.bIsSRGBInput with
          | some TextureSampleEven =>
            { pl with VideoSamples := pl.VideoSamples ++ [TextureSampleEven] }
          | none => pl
        let pl :=
          match FBlackmagicMediaTextureSample.InitializeWithEvenOddLine false
              (InFrameInfo.VideoPitch * InFrameInfo.VideoHeight) InFrameInfo.VideoPitch
              InFrameInfo.VideoWidth InFrameInfo.VideoHeight SampleFormat
              DecodedTimeF2 pl.VideoFrameRate DecodedTimecodeF2 cb.bIsSRGBInput with
          | some TextureSampleOdd =>
            { pl with VideoSamples := pl.VideoSamples ++ [TextureSampleOdd] }
          | none => pl
        (cb, pl)
  else (cb, pl)

/-- `OnFrameReceived`, lines 197-362: the body guarded by
`MediaState == EMediaState::Playing`. -/
def processPlayingFrame (cb : FBlackmagicMediaPlayerEventCallback)
    (pl : MediaPlayerData) (InFrameInfo : BlackmagicDesign.FFrameReceivedInfo)
    (DecodedTime DecodedTimeF2 : Rat) :
    FBlackmagicMediaPlayerEventCallback × MediaPlayerData :=
  let d := decodeTimecode cb pl InFrameInfo DecodedTime DecodedTimeF2
  let a := processAudioBuffer d.callback pl InFrameInfo d.DecodedTime d.DecodedTimecode
  processVideoBuffer a.1 a.2 InFrameInfo d.DecodedTime d.DecodedTimeF2
    d.DecodedTimecode d.DecodedTimecodeF2

/-- `OnFrameReceived` (lines 166-363). `CurrentTime` is `FApp::GetCurrentTime()`
and `PlatformSeconds` is `MediaPlayer->GetPlatformSeconds()`, both external
clocks. When the back-reference to the player has been cleared the callback is
a no-op; a no-input, no-audio event runs the no-signal heartbeat; otherwise the
valid-frame flag absorbs `bHasInputSource` and, in the `Playing` state only,
the audio and video payloads are decoded and enqueued. -/
def OnFrameReceived (cb : FBlackmagicMediaPlayerEventCallback)
    (pl : MediaPlayerData) (InFrameInfo : BlackmagicDesign.FFrameReceivedInfo)
    (CurrentTime PlatformSeconds : Rat) :
    FBlackmagicMediaPlayerEventCallback × MediaPlayerData :=
  if cb.MediaPlayer = false then
    (cb, pl)
  else if InFrameInfo.bHasInputSource = false ∧ InFrameInfo.AudioBuffer = false then
    (noSignalHeartbeat cb CurrentTime, pl)
  else
    let cb := { cb with
      bReceivedValidFrame := cb.bReceivedValidFrame || InFrameInfo.bHasInputSource }
    let DecodedTime : Rat := PlatformSeconds
    let DecodedTimeF2 : Rat := DecodedTime + pl.VideoFrameRate.AsInterval
    if cb.MediaState = EMediaState.Playing then
      processPlayingFrame cb pl InFrameInfo DecodedTime DecodedTimeF2
    else (cb, pl)

end FBlackmagicMediaPlayerEventCallback

export FBlackmagicMediaPlayerEventCallback (TeardownAction)

/-- The consumer-side facade `FBlackmagicMediaPlayer`: the (possibly absent)
callback object it owns plus the player fields of `MediaPlayerData`. -/
structure FBlackmagicMediaPlayer where
  EventCallback : Option FBlackmagicMediaPlayerEventCallback
  data : MediaPlayerData
  deriving DecidableEq, Repr

namespace FBlackmagicMediaPlayer

/-- `FBlackmagicMediaPlayer::Close` (lines 437-449): uninitialize and drop the
callback if there is one, reset the sample pools, and run the base-class close.
`AudioSamplePool->Reset()` / `TextureSamplePool->Reset()` act on the object
pools, which hold no modelled state; `Super::Close()` is engine code
(`FMediaIOCorePlayerBase`), which flushes the queued samples and leaves the
player in the `Closed` state. -/
def Close (p : FBlackmagicMediaPlayer) :
    FBlackmagicMediaPlayer × List TeardownAction :=
  let r :=
    match p.EventCallback with
    | some cb =>
      let u := cb.Uninitialize
      ({ p with EventCallback := none }, u.2)
    | none => (p, ([] : List TeardownAction))
  let p := r.1
  let p := { p with data := { p.data with
    AudioSamples := []
    VideoSamples := []
    CurrentState := EMediaState.Closed } }
  (p, r.2)

/-- The `NewState` read at the top of `TickInput` (line 531): the callback's
producer-reported state, or `Closed` when no callback is registered. -/
def tickNewState (p : FBlackmagicMediaPlayer) : EMediaState :=
  match p.EventCallback with
  | some cb => cb.GetMediaState
  | none => EMediaState.Closed

/-- `FBlackmagicMediaPlayer::TickInput` (lines 528-555): sync `CurrentState`
with the producer-reported state; on a transition into `Playing` send the
`TracksChanged`, `MediaOpened`, `PlaybackResumed` trio, and on a transition
into `Error` send `MediaOpenFailed` and close. Returns the events sent to the
`IMediaEventSink`, in order. `TickTimeManagement()` (line 554) is engine code
with no modelled state. -/
def TickInput (p : FBlackmagicMediaPlayer) :
    FBlackmagicMediaPlayer × List EMediaEvent :=
  let NewState := p.tickNewState
  if NewState ≠ p.data.CurrentState then
    let p := { p with data := { p.data with CurrentState := NewState } }
    if p.data.CurrentState = EMediaState.Playing then
      (p, [EMediaEvent.TracksChanged, EMediaEvent.MediaOpened, EMediaEvent.PlaybackResumed])
    else if NewState = EMediaState.Error then
      ((p.Close).1, [EMediaEvent.MediaOpenFailed])
    else (p, [])
  else (p, [])

/-- `FBlackmagicMediaPlayer::IsHardwareReady` (lines 576-579). -/
def IsHardwareReady (p : FBlackmagicMediaPlayer) : Bool :=
  match p.EventCallback with
  | some cb => decide (cb.GetMediaState = EMediaState.Playing)
  | none => false

/-- `FBlackmagicMediaPlayer::ProcessFrame` (lines 566-569): refresh the last
observed audio track format. The source dereferences `EventCallback`
unconditionally; it is only called under `IsHardwareReady`. -/
def ProcessFrame (p : FBlackmagicMediaPlayer) : FBlackmagicMediaPlayer :=
  match p.EventCallback with
  | some cb =>
    { p with data := { p.data with AudioTrackFormat := cb.UpdateAudioTrackFormat } }
  | none => p

/-- `FBlackmagicMediaPlayer::VerifyFrameDropCount` (lines 571-574), returning
also the two reported overflow counts. -/
def VerifyFrameDropCount (p : FBlackmagicMediaPlayer) :
    FBlackmagicMediaPlayer × Int × Int :=
  match p.EventCallback with
  | some cb =>
    let r := cb.VerifyFrameDropCount_GameThread p.data
    ({ p with EventCallback := some r.callback, data := r.player },
     r.AudioOverflowCount, r.VideoOverflowCount)
  | none => (p, 0, 0)

/-- `FBlackmagicMediaPlayer::TickFetch` (lines 557-564). -/
def TickFetch (p : FBlackmagicMediaPlayer) :
    FBlackmagicMediaPlayer × Int × Int :=
  if p.IsHardwareReady = true then (p.ProcessFrame).VerifyFrameDropCount
  else (p, 0, 0)

end FBlackmagicMediaPlayer

/-- `EBlackmagicMediaSourceColorFormat` (from `BlackmagicMediaSource.h`). -/
inductive EBlackmagicMediaSourceColorFormat
  | YUV8
  | YUV10
  deriving DecidableEq, Repr

/-- `EMediaIOTimecodeFormat` (from `MediaIOCoreDefinitions.h`). -/
inductive EMediaIOTimecodeFormat
  | None
  | LTC
  | VITC
  deriving DecidableEq, Repr

/-- `EBlackmagicMediaAudioChannel` (from `BlackmagicMediaSource.h`). -/
inductive EBlackmagicMediaAudioChannel
  | Stereo2
  | Surround8
  deriving DecidableEq, Repr

/-- The values produced by the string-keyed `IMediaOptions` bag in
`FBlackmagicMediaPlayer::Open` (lines 477-515), with the player's per-key
defaults already applied by `GetMediaOption`. -/
structure FMediaOptions where
  DeviceIndex : Int
  CaptureVideo : Bool
  BlackmagicVideoFormat : Int
  ColorFormat : EBlackmagicMediaSourceColorFormat
  SRGBInput : Bool
  TimecodeFormat : EMediaIOTimecodeFormat
  CaptureAudio : Bool
  AudioChannelOption : EBlackmagicMediaAudioChannel
  LogDropFrame : Bool
  EncodeTimecodeInTexel : Bool
  MaxAudioFrameBuffer : Int
  MaxVideoFrameBuffer : Int
  deriving DecidableEq, Repr

namespace FBlackmagicMediaPlayer

/-- `FBlackmagicMediaPlayer::Open` (lines 457-525). The external conditions
enter as parameters: `blackmagicInitialized` is `FBlackmagic::IsInitialized()`,
`canUseBlackmagicCard` is `FBlackmagic::CanUseBlackmagicCard()`,
`superOpenSucceeds` is the engine base-class `Super::Open` (whose own URL
bookkeeping is not modelled), and `registrationSucceeds` is the validity of the
identifier returned by the SDK registration. The `check(EventCallback ==
nullptr)` assertion is a debug assert with no effect in shipping builds. -/
def Open (p : FBlackmagicMediaPlayer) (Options : FMediaOptions)
    (blackmagicInitialized canUseBlackmagicCard superOpenSucceeds
      registrationSucceeds : Bool) :
    FBlackmagicMediaPlayer × Bool :=
  if blackmagicInitialized = false then (p, false)
  else if canUseBlackmagicCard = false then (p, false)
  else if superOpenSucceeds = false then (p, false)
  else
    let ChannelInfo : BlackmagicDesign.FChannelInfo :=
      { DeviceIndex := Options.DeviceIndex }
    let cb := FBlackmagicMediaPlayerEventCallback.construct true ChannelInfo
    let ChannelOptions : BlackmagicDesign.FInputChannelOptions :=
      { CallbackPriority := 10
        bReadVideo := Options.CaptureVideo
        DisplayMode := Options.BlackmagicVideoFormat
        PixelFormat :=
          if Options.ColorFormat = EBlackmagicMediaSourceColorFormat.YUV8 then
            BlackmagicDesign.EPixelFormat.pf_8Bits
          else BlackmagicDesign.EPixelFormat.pf_10Bits
        TimecodeFormat :=
          match Options.TimecodeFormat with
          | EMediaIOTimecodeFormat.LTC => BlackmagicDesign.ETimecodeFormat.TCF_LTC
          | EMediaIOTimecodeFormat.VITC => BlackmagicDesign.ETimecodeFormat.TCF_VITC1
          | EMediaIOTimecodeFormat.None => BlackmagicDesign.ETimecodeFormat.TCF_None
        bReadAudio := Options.CaptureAudio
        NumberOfAudioChannel :=
          if Options.AudioChannelOption = EBlackmagicMediaAudioChannel.Surround8 then 8
          else 2 }
    let p := { p with data := { p.data with
      bVerifyFrameDropCount := Options.LogDropFrame } }
    let bEncodeTimecodeInTexel : Bool :=
      decide (Options.TimecodeFormat ≠ EMediaIOTimecodeFormat.None)
        && Options.EncodeTimecodeInTexel
    let r := cb.Initialize ChannelOptions bEncodeTimecodeInTexel
      Options.MaxAudioFrameBuffer Options.MaxVideoFrameBuffer Options.SRGBInput
      registrationSucceeds
    if r.2 = false then
      ({ p with EventCallback := none }, false)
    else
      ({ p with EventCallback := some r.1 }, r.2)

end FBlackmagicMediaPlayer

/-- One step of the producer/consumer pipeline the buffering claims quantify
over: a hardware frame event (producer side) or one run of the game-thread
buffer maintenance (consumer side). -/
inductive PipelineOp
  | frame (InFrameInfo : BlackmagicDesign.FFrameReceivedInfo)
      (CurrentTime PlatformSeconds : Rat)
  | maintain
  deriving DecidableEq, Repr

/-- Applies one `PipelineOp` to a callback/player pair. -/
def stepPipeline
    (s : FBlackmagicMediaPlayerEventCallback × MediaPlayerData) :
    PipelineOp → FBlackmagicMediaPlayerEventCallback × MediaPlayerData
  | PipelineOp.frame info t ps => s.1.OnFrameReceived s.2 info t ps
  | PipelineOp.maintain =>
    let r := s.1.VerifyFrameDropCount_GameThread s.2
    (r.callback, r.player)

/-- Runs a sequence of pipeline operations. -/
def runPipeline (s : FBlackmagicMediaPlayerEventCallback × MediaPlayerData)
    (ops : List PipelineOp) :
    FBlackmagicMediaPlayerEventCallback × MediaPlayerData :=
  ops.foldl stepPipeline s

/-- A frame event together with the two clock readings it is processed at:
`(InFrameInfo, CurrentTime, PlatformSeconds)`. -/
abbrev FrameEvent :=
  BlackmagicDesign.FFrameReceivedInfo × Rat × Rat

/-- Delivers a sequence of frame events to the callback. -/
def runFrames (s : FBlackmagicMediaPlayerEventCallback × MediaPlayerData)
    (evs : List FrameEvent) :
    FBlackmagicMediaPlayerEventCallback × MediaPlayerData :=
  evs.foldl (fun s e => s.1.OnFrameReceived s.2 e.1 e.2.1 e.2.2) s

/-- A frame event that reports no input source and carries no audio payload. -/
def NoSignalEvent (e : FrameEvent) : Prop :=
  e.1.bHasInputSource = false ∧ e.1.AudioBuffer = false

instance : DecidablePred NoSignalEvent := fun e =>
  inferInstanceAs (Decidable (e.1.bHasInputSource = false ∧ e.1.AudioBuffer = false))

/-! ### Lemmas about the individual blocks of `OnFrameReceived` -/

namespace FBlackmagicMediaPlayerEventCallback

theorem noSignalHeartbeat_fields (cb : FBlackmagicMediaPlayerEventCallback)
    (t : Rat) :
    (noSignalHeartbeat cb t).MediaPlayer = cb.MediaPlayer ∧
    (noSignalHeartbeat cb t).bReceivedValidFrame = cb.bReceivedValidFrame ∧
    (noSignalHeartbeat cb t).AudioFrameDropCount = cb.AudioFrameDropCount ∧
    (noSignalHeartbeat cb t).VideoFrameDropCount = cb.VideoFrameDropCount ∧
    (noSignalHeartbeat cb t).MaxNumAudioFrameBuffer = cb.MaxNumAudioFrameBuffer ∧
    (noSignalHeartbeat cb t).MaxNumVideoFrameBuffer = cb.MaxNumVideoFrameBuffer ∧
    ((noSignalHeartbeat cb t).MediaState = cb.MediaState ∨
      (noSignalHeartbeat cb t).MediaState = EMediaState.Error) := by
  simp only [noSignalHeartbeat]
  split <;> split <;> simp

theorem decodeTimecode_callback_fields (cb : FBlackmagicMediaPlayerEventCallback)
    (pl : MediaPlayerData) (i : BlackmagicDesign.FFrameReceivedInfo)
    (dt dtf : Rat) :
    (decodeTimecode cb pl i dt dtf).callback.MediaPlayer = cb.MediaPlayer ∧
    (decodeTimecode cb pl i dt dtf).callback.MediaState = cb.MediaState ∧
    (decodeTimecode cb pl i dt dtf).callback.bReceivedValidFrame = cb.bReceivedValidFrame ∧
    (decodeTimecode cb pl i dt dtf).callback.AudioFrameDropCount = cb.AudioFrameDropCount ∧
    (decodeTimecode cb pl i dt dtf).callback.VideoFrameDropCount = cb.VideoFrameDropCount ∧
    (decodeTimecode cb pl i dt dtf).callback.MaxNumAudioFrameBuffer = cb.MaxNumAudioFrameBuffer ∧
    (decodeTimecode cb pl i dt dtf).callback.MaxNumVideoFrameBuffer = cb.MaxNumVideoFrameBuffer ∧
    (decodeTimecode cb pl i dt dtf).callback.bIsSRGBInput = cb.bIsSRGBInput := by
  simp only [decodeTimecode]
  split <;> [skip; split] <;> simp

theorem decodeTimecode_timeF2 (cb : FBlackmagicMediaPlayerEventCallback)
    (pl : MediaPlayerData) (i : BlackmagicDesign.FFrameReceivedInfo)
    (dt dtf : Rat) (h : dtf = dt + pl.VideoFrameRate.AsInterval) :
    (decodeTimecode cb pl i dt dtf).DecodedTimeF2 =
      (decodeTimecode cb pl i dt dtf).DecodedTime + pl.VideoFrameRate.AsInterval := by
  simp only [decodeTimecode]
  split
  · split <;> simp [h]
  · simp [h]

theorem decodeTimecode_timecodeF2 (cb : FBlackmagicMediaPlayerEventCallback)
    (pl : MediaPlayerData) (i : BlackmagicDesign.FFrameReceivedInfo)
    (dt dtf : Rat) :
    (decodeTimecode cb pl i dt dtf).DecodedTimecodeF2 =
      (decodeTimecode cb pl i dt dtf).DecodedTimecode.map
        (fun tc => { tc with Frames := tc.Frames + 1 }) := by
  simp only [decodeTimecode]
  split <;> simp

theorem decodeTimecode_haveTimecode (cb : FBlackmagicMediaPlayerEventCallback)
    (pl : MediaPlayerData) (i : BlackmagicDesign.FFrameReceivedInfo)
    (dt dtf : Rat) (h : i.bHaveTimecode = true) :
    ∃ tc : FTimecode, (decodeTimecode cb pl i dt dtf).DecodedTimecode = some tc := by
  simp only [decodeTimecode, h]
  simp

theorem processAudioBuffer_fields (cb : FBlackmagicMediaPlayerEventCallback)
    (pl : MediaPlayerData) (i : BlackmagicDesign.FFrameReceivedInfo)
    (dt : Rat) (dtc : Option FTimecode) :
    (processAudioBuffer cb pl i dt dtc).1.MediaPlayer = cb.MediaPlayer ∧
    (processAudioBuffer cb pl i dt dtc).1.MediaState = cb.MediaState ∧
    (processAudioBuffer cb pl i dt dtc).1.VideoFrameDropCount = cb.VideoFrameDropCount ∧
    (processAudioBuffer cb pl i dt dtc).1.MaxNumAudioFrameBuffer = cb.MaxNumAudioFrameBuffer ∧
    (processAudioBuffer cb pl i dt dtc).1.MaxNumVideoFrameBuffer = cb.MaxNumVideoFrameBuffer ∧
    (processAudioBuffer cb pl i dt dtc).1.bIsSRGBInput = cb.bIsSRGBInput ∧
    (processAudioBuffer cb pl i dt dtc).2.VideoSamples = pl.VideoSamples ∧
    (processAudioBuffer cb pl i dt dtc).2.bVerifyFrameDropCount = pl.bVerifyFrameDropCount ∧
    (processAudioBuffer cb pl i dt dtc).2.bUseTimeSynchronization = pl.bUseTimeSynchronization ∧
    (processAudioBuffer cb pl i dt dtc).2.VideoFrameRate = pl.VideoFrameRate ∧
    (processAudioBuffer cb pl i dt dtc).2.bBlackmagicWriteOutputRawDataCmdEnable =
      pl.bBlackmagicWriteOutputRawDataCmdEnable := by
  simp only [processAudioBuffer, FBlackmagicMediaAudioSample.Initialize]
  split <;> [split <;> [split; skip]; skip] <;> simp

theorem processAudioBuffer_drop (cb : FBlackmagicMediaPlayerEventCallback)
    (pl : MediaPlayerData) (i : BlackmagicDesign.FFrameReceivedInfo)
    (dt : Rat) (dtc : Option FTimecode)
    (h : (processAudioBuffer cb pl i dt dtc).1.AudioFrameDropCount ≠ cb.AudioFrameDropCount) :
    (pl.AudioSamples.length : Int) ≥ cb.MaxNumAudioFrameBuffer * 2 ∧
    (processAudioBuffer cb pl i dt dtc).2.AudioSamples = pl.AudioSamples := by
  revert h
  simp only [processAudioBuffer, FBlackmagicMediaAudioSample.Initialize,
    BlackmagicMediaPlayerHelpers.ToleratedExtraMaxBufferCount]
  split <;> [split <;> [split; skip]; skip] <;> simp_all

theorem processAudioBuffer_enqueue (cb : FBlackmagicMediaPlayerEventCallback)
    (pl : MediaPlayerData) (i : BlackmagicDesign.FFrameReceivedInfo)
    (dt : Rat) (dtc : Option FTimecode)
    (hbuf : i.AudioBuffer = true)
    (hocc : (pl.AudioSamples.length : Int) < cb.MaxNumAudioFrameBuffer * 2) :
    processAudioBuffer cb pl i dt dtc =
      ({ cb with
          LastBitsPerSample := 4
          LastSampleRate := i.AudioRate
          LastNumChannels := i.NumberOfAudioChannel },
       { pl with AudioSamples :=
          pl.AudioSamples ++ [⟨i.AudioBufferSize / 4, i.NumberOfAudioChannel, i.AudioRate, dt, dtc⟩] }) := by
  simp only [processAudioBuffer, FBlackmagicMediaAudioSample.Initialize, hbuf,
    BlackmagicMediaPlayerHelpers.ToleratedExtraMaxBufferCount, if_true]
  rw [if_neg (by omega)]

theorem processVideoBuffer_fields (cb : FBlackmagicMediaPlayerEventCallback)
    (pl : MediaPlayerData) (i : BlackmagicDesign.FFrameReceivedInfo)
    (dt dtf : Rat) (dtc dtcf : Option FTimecode) :
    (processVideoBuffer cb pl i dt dtf dtc dtcf).1.MediaPlayer = cb.MediaPlayer ∧
    (processVideoBuffer cb pl i dt dtf dtc dtcf).1.MediaState = cb.MediaState ∧
    (processVideoBuffer cb pl i dt dtf dtc dtcf).1.AudioFrameDropCount = cb.AudioFrameDropCount ∧
    (processVideoBuffer cb pl i dt dtf dtc dtcf).1.MaxNumAudioFrameBuffer = cb.MaxNumAudioFrameBuffer ∧
    (processVideoBuffer cb pl i dt dtf dtc dtcf).1.MaxNumVideoFrameBuffer = cb.MaxNumVideoFrameBuffer ∧
    (processVideoBuffer cb pl i dt dtf dtc dtcf).2.AudioSamples = pl.AudioSamples ∧
    (processVideoBuffer cb pl i dt dtf dtc dtcf).2.bVerifyFrameDropCount = pl.bVerifyFrameDropCount ∧
    (processVideoBuffer cb pl i dt dtf dtc dtcf).2.bUseTimeSynchronization = pl.bUseTimeSynchronization ∧
    (processVideoBuffer cb pl i dt dtf dtc dtcf).2.VideoFrameRate = pl.VideoFrameRate := by
  simp only [processVideoBuffer, FBlackmagicMediaTextureSample.Initialize,
    FBlackmagicMediaTextureSample.InitializeWithEvenOddLine]
  repeat' split
  all_goals simp

theorem processVideoBuffer_drop (cb : FBlackmagicMediaPlayerEventCallback)
    (pl : MediaPlayerData) (i : BlackmagicDesign.FFrameReceivedInfo)
    (dt dtf : Rat) (dtc dtcf : Option FTimecode)
    (h : (processVideoBuffer cb pl i dt dtf dtc dtcf).1.VideoFrameDropCount ≠
      cb.VideoFrameDropCount) :
    (pl.VideoSamples.length : Int) +
      (if i.FieldDominance = BlackmagicDesign.EFieldDominance.Interlaced then 1 else 0) ≥
      cb.MaxNumVideoFrameBuffer * 2 ∧
    (processVideoBuffer cb pl i dt dtf dtc dtcf).2.VideoSamples = pl.VideoSamples := by
  by_cases hfd : i.FieldDominance = BlackmagicDesign.EFieldDominance.Interlaced <;>
    · revert h
      simp only [processVideoBuffer, FBlackmagicMediaTextureSample.Initialize,
        FBlackmagicMediaTextureSample.InitializeWithEvenOddLine,
        BlackmagicMediaPlayerHelpers.ToleratedExtraMaxBufferCount]
      repeat' split
      all_goals intro h
      all_goals simp_all

/-- The occupancy check of the video block: below tolerated capacity, an
interlaced event appends exactly the even-field and odd-field samples. -/
theorem processVideoBuffer_interlaced (cb : FBlackmagicMediaPlayerEventCallback)
    (pl : MediaPlayerData) (i : BlackmagicDesign.FFrameReceivedInfo)
    (dt dtf : Rat) (dtc dtcf : Option FTimecode)
    (hv : i.VideoBuffer = true)
    (hfd : i.FieldDominance = BlackmagicDesign.EFieldDominance.Interlaced)
    (hocc : (pl.VideoSamples.length : Int) + 1 < cb.MaxNumVideoFrameBuffer * 2) :
    (processVideoBuffer cb pl i dt dtf dtc dtcf).2.VideoSamples =
      pl.VideoSamples ++
        [⟨some true, i.VideoPitch * i.VideoHeight, i.VideoPitch, i.VideoWidth,
          i.VideoHeight, sampleFormatOf i.PixelFormat, dt, pl.VideoFrameRate, dtc,
          cb.bIsSRGBInput⟩,
         ⟨some false, i.VideoPitch * i.VideoHeight, i.VideoPitch, i.VideoWidth,
          i.VideoHeight, sampleFormatOf i.PixelFormat, dtf, pl.VideoFrameRate, dtcf,
          cb.bIsSRGBInput⟩] := by
  have hprog : decide (i.FieldDominance ≠ BlackmagicDesign.EFieldDominance.Interlaced) = false := by
    simp [hfd]
  have hcap : ¬ ((pl.VideoSamples.length : Int) + 1 ≥
      cb.MaxNumVideoFrameBuffer * BlackmagicMediaPlayerHelpers.ToleratedExtraMaxBufferCount) := by
    simp only [BlackmagicMediaPlayerHelpers.ToleratedExtraMaxBufferCount]
    omega
  simp only [processVideoBuffer, hv, hprog, if_true,
    FBlackmagicMediaTextureSample.InitializeWithEvenOddLine]
  rw [if_neg hcap, if_neg (by simp)]
  split <;> simp

theorem processPlayingFrame_fields (cb : FBlackmagicMediaPlayerEventCallback)
    (pl : MediaPlayerData) (i : BlackmagicDesign.FFrameReceivedInfo)
    (dt dtf : Rat) :
    (processPlayingFrame cb pl i dt dtf).1.MediaPlayer = cb.MediaPlayer ∧
    (processPlayingFrame cb pl i dt dtf).1.MediaState = cb.MediaState ∧
    (processPlayingFrame cb pl i dt dtf).1.MaxNumAudioFrameBuffer = cb.MaxNumAudioFrameBuffer ∧
    (processPlayingFrame cb pl i dt dtf).1.MaxNumVideoFrameBuffer = cb.MaxNumVideoFrameBuffer ∧
    (processPlayingFrame cb pl i dt dtf).2.bVerifyFrameDropCount = pl.bVerifyFrameDropCount := by
  unfold processPlayingFrame
  generalize hD : decodeTimecode cb pl i dt dtf = d
  have hd := decodeTimecode_callback_fields cb pl i dt dtf
  rw [hD] at hd
  generalize hA : processAudioBuffer d.callback pl i d.DecodedTime d.DecodedTimecode = a
  have ha := processAudioBuffer_fields d.callback pl i d.DecodedTime d.DecodedTimecode
  rw [hA] at ha
  have hv := processVideoBuffer_fields a.1 a.2 i d.DecodedTime d.DecodedTimeF2
    d.DecodedTimecode d.DecodedTimecodeF2
  obtain ⟨hd1, hd2, hd3, hd4, hd5, hd6, hd7, hd8⟩ := hd
  obtain ⟨ha1, ha2, ha3, ha4, ha5, ha6, ha7, ha8, ha9, ha10, ha11⟩ := ha
  obtain ⟨hv1, hv2, hv3, hv4, hv5, hv6, hv7, hv8, hv9⟩ := hv
  simp_all

theorem processPlayingFrame_audio_drop (cb : FBlackmagicMediaPlayerEventCallback)
    (pl : MediaPlayerData) (i : BlackmagicDesign.FFrameReceivedInfo)
    (dt dtf : Rat)
    (h : (processPlayingFrame cb pl i dt dtf).1.AudioFrameDropCount ≠ cb.AudioFrameDropCount) :
    (pl.AudioSamples.length : Int) ≥ cb.MaxNumAudioFrameBuffer * 2 ∧
    (processPlayingFrame cb pl i dt dtf).2.AudioSamples = pl.AudioSamples := by
  simp only [processPlayingFrame] at h ⊢
  generalize hD : decodeTimecode cb pl i dt dtf = d at h ⊢
  have hd := decodeTimecode_callback_fields cb pl i dt dtf
  rw [hD] at hd
  generalize hA : processAudioBuffer d.callback pl i d.DecodedTime d.DecodedTimecode = a at h ⊢
  have hv := processVideoBuffer_fields a.1 a.2 i d.DecodedTime d.DecodedTimeF2
    d.DecodedTimecode d.DecodedTimecodeF2
  obtain ⟨hd1, hd2, hd3, hd4, hd5, hd6, hd7, hd8⟩ := hd
  obtain ⟨hv1, hv2, hv3, hv4, hv5, hv6, hv7, hv8, hv9⟩ := hv
  rw [hv3] at h
  have hda : a.1.AudioFrameDropCount ≠ d.callback.AudioFrameDropCount := by
    rw [hd4]; exact h
  have hdrop := processAudioBuffer_drop d.callback pl i d.DecodedTime d.DecodedTimecode
    (by rw [hA]; exact hda)
  rw [hA] at hdrop
  exact ⟨by rw [← hd6]; exact hdrop.1, by rw [hv6]; exact hdrop.2⟩

theorem processPlayingFrame_video_drop (cb : FBlackmagicMediaPlayerEventCallback)
    (pl : MediaPlayerData) (i : BlackmagicDesign.FFrameReceivedInfo)
    (dt dtf : Rat)
    (h : (processPlayingFrame cb pl i dt dtf).1.VideoFrameDropCount ≠ cb.VideoFrameDropCount) :
    (pl.VideoSamples.length : Int) +
      (if i.FieldDominance = BlackmagicDesign.EFieldDominance.Interlaced then 1 else 0) ≥
      cb.MaxNumVideoFrameBuffer * 2 ∧
    (processPlayingFrame cb pl i dt dtf).2.VideoSamples = pl.VideoSamples := by
  simp only [processPlayingFrame] at h ⊢
  generalize hD : decodeTimecode cb pl i dt dtf = d at h ⊢
  have hd := decodeTimecode_callback_fields cb pl i dt dtf
  rw [hD] at hd
  generalize hA : processAudioBuffer d.callback pl i d.DecodedTime d.DecodedTimecode = a at h ⊢
  have ha := processAudioBuffer_fields d.callback pl i d.DecodedTime d.DecodedTimecode
  rw [hA] at ha
  obtain ⟨hd1, hd2, hd3, hd4, hd5, hd6, hd7, hd8⟩ := hd
  obtain ⟨ha1, ha2, ha3, ha4, ha5, ha6, ha7, ha8, ha9, ha10, ha11⟩ := ha
  have hva : (processVideoBuffer a.1 a.2 i d.DecodedTime d.DecodedTimeF2
      d.DecodedTimecode d.DecodedTimecodeF2).1.VideoFrameDropCount ≠ a.1.VideoFrameDropCount := by
    rw [ha3, hd5]; exact h
  have hdrop := processVideoBuffer_drop a.1 a.2 i d.DecodedTime d.DecodedTimeF2
    d.DecodedTimecode d.DecodedTimecodeF2 hva
  constructor
  · rw [← hd7, ← ha5, ← ha7]; exact hdrop.1
  · rw [hdrop.2, ha7]

/-- Below tolerated capacity, the `Playing`-state processing of an interlaced
video event appends exactly an even-field and an odd-field sample whose
presentation times differ by one frame interval of the active frame rate and
whose decoded timecodes (when the event carries one) differ by one frame. -/
theorem processPlayingFrame_interlaced (cb : FBlackmagicMediaPlayerEventCallback)
    (pl : MediaPlayerData) (i : BlackmagicDesign.FFrameReceivedInfo)
    (dt dtf : Rat)
    (hdt : dtf = dt + pl.VideoFrameRate.AsInterval)
    (hv : i.VideoBuffer = true)
    (hfd : i.FieldDominance = BlackmagicDesign.EFieldDominance.Interlaced)
    (hocc : (pl.VideoSamples.length : Int) + 1 < cb.MaxNumVideoFrameBuffer * 2) :
    ∃ e o : FBlackmagicMediaTextureSample,
      (processPlayingFrame cb pl i dt dtf).2.VideoSamples = pl.VideoSamples ++ [e, o] ∧
      e.evenOddLine = some true ∧ o.evenOddLine = some false ∧
      o.Time = e.Time + pl.VideoFrameRate.AsInterval ∧
      (i.bHaveTimecode = true →
        ∃ tc : FTimecode, e.Timecode = some tc ∧
          o.Timecode = some { tc with Frames := tc.Frames + 1 }) := by
  simp only [processPlayingFrame]
  have htF2 := decodeTimecode_timeF2 cb pl i dt dtf hdt
  have htcF2 := decodeTimecode_timecodeF2 cb pl i dt dtf
  have htc := fun h => decodeTimecode_haveTimecode cb pl i dt dtf h
  generalize hD : decodeTimecode cb pl i dt dtf = d at htF2 htcF2 htc ⊢
  have hd := decodeTimecode_callback_fields cb pl i dt dtf
  rw [hD] at hd
  generalize hA : processAudioBuffer d.callback pl i d.DecodedTime d.DecodedTimecode = a
  have ha := processAudioBuffer_fields d.callback pl i d.DecodedTime d.DecodedTimecode
  rw [hA] at ha
  obtain ⟨hd1, hd2, hd3, hd4, hd5, hd6, hd7, hd8⟩ := hd
  obtain ⟨ha1, ha2, ha3, ha4, ha5, ha6, ha7, ha8, ha9, ha10, ha11⟩ := ha
  have hocc2 : ((a.2.VideoSamples.length : Int) + 1 < a.1.MaxNumVideoFrameBuffer * 2) := by
    rw [ha7, ha5, hd7]; exact hocc
  have happ := processVideoBuffer_interlaced a.1 a.2 i d.DecodedTime d.DecodedTimeF2
    d.DecodedTimecode d.DecodedTimecodeF2 hv hfd hocc2
  refine ⟨_, _, by rw [happ, ha7], rfl, rfl, ?_, ?_⟩
  · simp only [htF2]
  · intro hhave
    obtain ⟨tc, htc1⟩ := htc hhave
    exact ⟨tc, by simp [htc1], by simp [htc1, htcF2]⟩

theorem OnFrameReceived_fields (cb : FBlackmagicMediaPlayerEventCallback)
    (pl : MediaPlayerData) (i : BlackmagicDesign.FFrameReceivedInfo)
    (t ps : Rat) :
    (OnFrameReceived cb pl i t ps).1.MediaPlayer = cb.MediaPlayer ∧
    (OnFrameReceived cb pl i t ps).1.MaxNumAudioFrameBuffer = cb.MaxNumAudioFrameBuffer ∧
    (OnFrameReceived cb pl i t ps).1.MaxNumVideoFrameBuffer = cb.MaxNumVideoFrameBuffer ∧
    ((OnFrameReceived cb pl i t ps).1.MediaState = cb.MediaState ∨
      (OnFrameReceived cb pl i t ps).1.MediaState = EMediaState.Error) := by
  simp only [OnFrameReceived]
  split
  · simp
  split
  · have hn := noSignalHeartbeat_fields cb t
    exact ⟨hn.1, hn.2.2.2.2.1, hn.2.2.2.2.2.1, hn.2.2.2.2.2.2⟩
  split
  · have hp := processPlayingFrame_fields
      { cb with bReceivedValidFrame := cb.bReceivedValidFrame || i.bHasInputSource } pl i ps
      (ps + pl.VideoFrameRate.AsInterval)
    exact ⟨hp.1, hp.2.2.1, hp.2.2.2.1, Or.inl hp.2.1⟩
  · simp

/-- A frame event increments the audio drop counter only when the audio queue
already held at least `MaxNumAudioFrameBuffer * 2` samples, and such an event
leaves the audio queue unchanged. -/
theorem OnFrameReceived_audio_drop (cb : FBlackmagicMediaPlayerEventCallback)
    (pl : MediaPlayerData) (i : BlackmagicDesign.FFrameReceivedInfo)
    (t ps : Rat)
    (h : (OnFrameReceived cb pl i t ps).1.AudioFrameDropCount ≠ cb.AudioFrameDropCount) :
    (pl.AudioSamples.length : Int) ≥ cb.MaxNumAudioFrameBuffer * 2 ∧
    (OnFrameReceived cb pl i t ps).2.AudioSamples = pl.AudioSamples := by
  revert h
  simp only [OnFrameReceived]
  split
  · simp
  split
  · have hn := noSignalHeartbeat_fields cb t
    rw [hn.2.2.1]
    simp
  split
  · intro h
    exact processPlayingFrame_audio_drop _ pl i ps (ps + pl.VideoFrameRate.AsInterval) h
  · simp

/-- A frame event increments the video drop counter only when the video queue
occupancy, counting the extra odd-field slot of an interlaced picture, was at
least `MaxNumVideoFrameBuffer * 2`, and such an event leaves the video queue
unchanged. -/
theorem OnFrameReceived_video_drop (cb : FBlackmagicMediaPlayerEventCallback)
    (pl : MediaPlayerData) (i : BlackmagicDesign.FFrameReceivedInfo)
    (t ps : Rat)
    (h : (OnFrameReceived cb pl i t ps).1.VideoFrameDropCount ≠ cb.VideoFrameDropCount) :
    (pl.VideoSamples.length : Int) +
      (if i.FieldDominance = BlackmagicDesign.EFieldDominance.Interlaced then 1 else 0) ≥
      cb.MaxNumVideoFrameBuffer * 2 ∧
    (OnFrameReceived cb pl i t ps).2.VideoSamples = pl.VideoSamples := by
  revert h
  simp only [OnFrameReceived]
  split
  · simp
  split
  · have hn := noSignalHeartbeat_fields cb t
    rw [hn.2.2.2.1]
    simp
  split
  · intro h
    exact processPlayingFrame_video_drop _ pl i ps (ps + pl.VideoFrameRate.AsInterval) h
  · simp

/-- After one run of the game-thread buffer maintenance, each queue holds at
most its configured soft maximum (provided the configured maxima are not
negative). -/
theorem verifyFrameDropCount_lengths (cb : FBlackmagicMediaPlayerEventCallback)
    (pl : MediaPlayerData)
    (hA : 0 ≤ cb.MaxNumAudioFrameBuffer) (hV : 0 ≤ cb.MaxNumVideoFrameBuffer) :
    (((cb.VerifyFrameDropCount_GameThread pl).player.AudioSamples.length : Int) ≤
      cb.MaxNumAudioFrameBuffer) ∧
    (((cb.VerifyFrameDropCount_GameThread pl).player.VideoSamples.length : Int) ≤
      cb.MaxNumVideoFrameBuffer) := by
  simp only [VerifyFrameDropCount_GameThread]
  split <;> simp <;> omega

theorem verifyFrameDropCount_callback_fields (cb : FBlackmagicMediaPlayerEventCallback)
    (pl : MediaPlayerData) :
    (cb.VerifyFrameDropCount_GameThread pl).callback.MediaPlayer = cb.MediaPlayer ∧
    (cb.VerifyFrameDropCount_GameThread pl).callback.MediaState = cb.MediaState ∧
    (cb.VerifyFrameDropCount_GameThread pl).callback.MaxNumAudioFrameBuffer =
      cb.MaxNumAudioFrameBuffer ∧
    (cb.VerifyFrameDropCount_GameThread pl).callback.MaxNumVideoFrameBuffer =
      cb.MaxNumVideoFrameBuffer ∧
    (cb.VerifyFrameDropCount_GameThread pl).player.bVerifyFrameDropCount =
      pl.bVerifyFrameDropCount := by
  simp only [VerifyFrameDropCount_GameThread]
  split <;> simp

/-- With drop logging enabled, buffer maintenance zeroes both drop counters and
reports the popped overflow plus the exchanged counter values. -/
theorem verifyFrameDropCount_counters (cb : FBlackmagicMediaPlayerEventCallback)
    (pl : MediaPlayerData) (h : pl.bVerifyFrameDropCount = true) :
    (cb.VerifyFrameDropCount_GameThread pl).callback.AudioFrameDropCount = 0 ∧
    (cb.VerifyFrameDropCount_GameThread pl).callback.VideoFrameDropCount = 0 ∧
    (cb.VerifyFrameDropCount_GameThread pl).AudioOverflowCount =
      max ((pl.AudioSamples.length : Int) - cb.MaxNumAudioFrameBuffer) 0 +
        cb.AudioFrameDropCount ∧
    (cb.VerifyFrameDropCount_GameThread pl).VideoOverflowCount =
      max ((pl.VideoSamples.length : Int) - cb.MaxNumVideoFrameBuffer) 0 +
        cb.VideoFrameDropCount := by
  simp only [VerifyFrameDropCount_GameThread]
  split <;> simp_all

end FBlackmagicMediaPlayerEventCallback

/-! ### Lemmas about traces of pipeline operations -/

theorem stepPipeline_max (s : FBlackmagicMediaPlayerEventCallback × MediaPlayerData)
    (op : PipelineOp) :
    (stepPipeline s op).1.MaxNumAudioFrameBuffer = s.1.MaxNumAudioFrameBuffer ∧
    (stepPipeline s op).1.MaxNumVideoFrameBuffer = s.1.MaxNumVideoFrameBuffer := by
  cases op with
  | frame info t ps =>
    have h := FBlackmagicMediaPlayerEventCallback.OnFrameReceived_fields s.1 s.2 info t ps
    exact ⟨h.2.1, h.2.2.1⟩
  | maintain =>
    have h := FBlackmagicMediaPlayerEventCallback.verifyFrameDropCount_callback_fields s.1 s.2
    exact ⟨h.2.2.1, h.2.2.2.1⟩

theorem runPipeline_max (ops : List PipelineOp) :
    ∀ s : FBlackmagicMediaPlayerEventCallback × MediaPlayerData,
      (runPipeline s ops).1.MaxNumAudioFrameBuffer = s.1.MaxNumAudioFrameBuffer ∧
      (runPipeline s ops).1.MaxNumVideoFrameBuffer = s.1.MaxNumVideoFrameBuffer := by
  induction ops with
  | nil => intro s; exact ⟨rfl, rfl⟩
  | cons op ops ih =>
    intro s
    have h1 := stepPipeline_max s op
    have h2 := ih (stepPipeline s op)
    simp only [runPipeline, List.foldl_cons] at h2 ⊢
    exact ⟨h2.1.trans h1.1, h2.2.trans h1.2⟩

theorem runFrames_cons (s : FBlackmagicMediaPlayerEventCallback × MediaPlayerData)
    (e : FrameEvent) (evs : List FrameEvent) :
    runFrames s (e :: evs) = runFrames (s.1.OnFrameReceived s.2 e.1 e.2.1 e.2.2) evs := rfl

/-- The no-signal induction: over a monotone trace of no-signal events delivered
to a callback that has never seen a valid frame and whose first-observed time
is at least `a`, the state can only be `Error` at the end if it already was, or
if some event in the trace happened more than two seconds after `a`. -/
theorem runFrames_noSignal_aux (evs : List FrameEvent) :
    ∀ (cb : FBlackmagicMediaPlayerEventCallback) (pl : MediaPlayerData) (a : Rat),
      (∀ e ∈ evs, NoSignalEvent e) →
      List.Pairwise (fun x y : FrameEvent => x.2.1 ≤ y.2.1) evs →
      (∀ e ∈ evs, cb.LastHasFrameTime ≤ e.2.1) →
      cb.bReceivedValidFrame = false →
      a ≤ cb.LastHasFrameTime →
      (runFrames (cb, pl) evs).1.MediaState = EMediaState.Error →
      cb.MediaState = EMediaState.Error ∨ ∃ e ∈ evs, a + 2 < e.2.1 := by
  induction evs with
  | nil =>
    intro cb pl a _ _ _ _ _ herr
    exact Or.inl herr
  | cons e evs ih =>
    intro cb pl a hns hpw hle hvalid ha herr
    rw [runFrames_cons] at herr
    have hnse : NoSignalEvent e := hns e (by simp)
    have hnsevs : ∀ x ∈ evs, NoSignalEvent x := fun x hx => hns x (by simp [hx])
    have hpw' : List.Pairwise (fun x y : FrameEvent => x.2.1 ≤ y.2.1) evs :=
      (List.pairwise_cons.mp hpw).2
    have hhead : ∀ x ∈ evs, e.2.1 ≤ x.2.1 := (List.pairwise_cons.mp hpw).1
    have hcbt : cb.LastHasFrameTime ≤ e.2.1 := hle e (by simp)
    by_cases hmp : cb.MediaPlayer = false
    · have hstep : cb.OnFrameReceived pl e.1 e.2.1 e.2.2 = (cb, pl) := by
        simp [FBlackmagicMediaPlayerEventCallback.OnFrameReceived, hmp]
      rw [hstep] at herr
      rcases ih cb pl a hnsevs hpw' (fun x hx => hle x (by simp [hx])) hvalid ha herr with
        h | ⟨x, hx, hxlt⟩
      · exact Or.inl h
      · exact Or.inr ⟨x, by simp [hx], hxlt⟩
    · have hstep : cb.OnFrameReceived pl e.1 e.2.1 e.2.2 =
          (FBlackmagicMediaPlayerEventCallback.noSignalHeartbeat cb e.2.1, pl) := by
        simp [FBlackmagicMediaPlayerEventCallback.OnFrameReceived, hmp, hnse.1, hnse.2]
      rw [hstep] at herr
      by_cases hlt10 : cb.LastHasFrameTime < (1 : Rat) / 10
      · have hcb1 : FBlackmagicMediaPlayerEventCallback.noSignalHeartbeat cb e.2.1 =
            { cb with LastHasFrameTime := e.2.1 } := by
          simp only [FBlackmagicMediaPlayerEventCallback.noSignalHeartbeat]
          rw [if_pos hlt10, if_neg (by simp [hvalid])]
        rw [hcb1] at herr
        rcases ih { cb with LastHasFrameTime := e.2.1 } pl a hnsevs hpw'
            (fun x hx => hhead x hx) hvalid (ha.trans hcbt) herr with h | ⟨x, hx, hxlt⟩
        · exact Or.inl h
        · exact Or.inr ⟨x, by simp [hx], hxlt⟩
      · by_cases htrig : (2 : Rat) < e.2.1 - cb.LastHasFrameTime
        · have hlt : a + 2 < e.2.1 := by linarith
          exact Or.inr ⟨e, by simp, hlt⟩
        · have hcb1 : FBlackmagicMediaPlayerEventCallback.noSignalHeartbeat cb e.2.1 = cb := by
            simp only [FBlackmagicMediaPlayerEventCallback.noSignalHeartbeat]
            rw [if_neg hlt10, if_neg (by simp [hvalid, htrig])]
          rw [hcb1] at herr
          rcases ih cb pl a hnsevs hpw' (fun x hx => hle x (by simp [hx])) hvalid ha herr with
            h | ⟨x, hx, hxlt⟩
          · exact Or.inl h
          · exact Or.inr ⟨x, by simp [hx], hxlt⟩

/-! ### Concrete fixtures for the witness theorems -/

/-- A 30 fps frame rate used by the witnesses. -/
def frameRateW : FFrameRate := ⟨30, 1⟩

/-- A concrete queued audio sample. -/
def audioSampleW : FBlackmagicMediaAudioSample := ⟨100, 2, 48000, 0, none⟩

/-- A concrete queued video sample. -/
def videoSampleW : FBlackmagicMediaTextureSample :=
  ⟨none, 160, 16, 8, 10, EMediaTextureSampleFormat.CharUYVY, 0, frameRateW, none, false⟩

/-- A live callback in the `Playing` state with soft maxima 2/2. -/
def cbW : FBlackmagicMediaPlayerEventCallback :=
  { RefCounter := 1
    BlackmagicIdendifier := true
    ChannelInfo := ⟨0⟩
    MediaPlayer := true
    MediaState := EMediaState.Playing
    PreviousTimecode := ⟨0, 0, 0, 0⟩
    PrevousTimespan := 0
    bEncodeTimecodeInTexel := false
    LastBitsPerSample := 0
    LastNumChannels := 0
    LastSampleRate := 0
    AudioFrameDropCount := 0
    MetadataFrameDropCount := 0
    VideoFrameDropCount := 0
    MaxNumAudioFrameBuffer := 2
    MaxNumVideoFrameBuffer := 2
    LastHasFrameTime := 0
    bReceivedValidFrame := false
    bIsTimecodeExpected := false
    bHasWarnedMissingTimecode := false
    bIsSRGBInput := false }

/-- Player data with three queued samples per kind and drop logging enabled. -/
def plW : MediaPlayerData :=
  { AudioSamples := [audioSampleW, audioSampleW, audioSampleW]
    VideoSamples := [videoSampleW, videoSampleW, videoSampleW]
    bVerifyFrameDropCount := true
    bUseTimeSynchronization := false
    VideoFrameRate := frameRateW
    CurrentState := EMediaState.Playing
    AudioTrackFormat := ⟨0, 0, 0⟩
    bBlackmagicWriteOutputRawDataCmdEnable := false }

/-- A frame event carrying audio and an interlaced, timecoded video buffer. -/
def infoW : BlackmagicDesign.FFrameReceivedInfo :=
  { bHasInputSource := true
    AudioBuffer := true
    AudioBufferSize := 1024
    NumberOfAudioChannel := 2
    AudioRate := 48000
    bHaveTimecode := true
    Timecode := ⟨1, 2, 3, 4⟩
    VideoBuffer := true
    VideoPitch := 16
    VideoWidth := 8
    VideoHeight := 4
    FieldDominance := BlackmagicDesign.EFieldDominance.Interlaced
    PixelFormat := BlackmagicDesign.EPixelFormat.pf_8Bits }

/-- A "no input source, no audio" heartbeat event payload. -/
def noSignalInfoW : BlackmagicDesign.FFrameReceivedInfo :=
  { infoW with bHasInputSource := false, AudioBuffer := false, VideoBuffer := false }

/-- Option values for the witnesses (the player defaults). -/
def optionsW : FMediaOptions :=
  { DeviceIndex := 0
    CaptureVideo := true
    BlackmagicVideoFormat := 0
    ColorFormat := EBlackmagicMediaSourceColorFormat.YUV8
    SRGBInput := true
    TimecodeFormat := EMediaIOTimecodeFormat.None
    CaptureAudio := false
    AudioChannelOption := EBlackmagicMediaAudioChannel.Stereo2
    LogDropFrame := false
    EncodeTimecodeInTexel := false
    MaxAudioFrameBuffer := 8
    MaxVideoFrameBuffer := 8 }

/-- A player whose callback just reported `Playing` while the consumer still
sees `Preparing`. -/
def playerPlayingW : FBlackmagicMediaPlayer :=
  ⟨some cbW, { plW with CurrentState := EMediaState.Preparing }⟩

/-- A player whose callback just reported `Error` while the consumer still
sees `Playing`. -/
def playerErrorW : FBlackmagicMediaPlayer :=
  ⟨some { cbW with MediaState := EMediaState.Error }, plW⟩

/-- `cbW` with both hard capacities at zero. -/
def cbZeroW : FBlackmagicMediaPlayerEventCallback :=
  { cbW with MaxNumAudioFrameBuffer := 0, MaxNumVideoFrameBuffer := 0 }

/-- `cbW` with five audio drops and seven video drops accumulated. -/
def cbDropsW : FBlackmagicMediaPlayerEventCallback :=
  { cbW with AudioFrameDropCount := 5, VideoFrameDropCount := 7 }

/-- `plW` with both sample queues empty. -/
def plEmptyW : MediaPlayerData := { plW with AudioSamples := [], VideoSamples := [] }

/-- `plW` with an empty video queue. -/
def plNoVideoW : MediaPlayerData := { plW with VideoSamples := [] }

/-- `plW` with an empty audio queue. -/
def plNoAudioW : MediaPlayerData := { plW with AudioSamples := [] }

/-- `infoW` without its video payload. -/
def infoAudioOnlyW : BlackmagicDesign.FFrameReceivedInfo :=
  { infoW with VideoBuffer := false }

/-! ### The claims -/

/-- C5: After `Uninitialize` has run, every subsequent `OnFrameReceived` is a
no-op: it returns early, enqueues no audio or video sample, increments no drop
counter, and leaves the media state and all other callback fields unchanged,
because `Uninitialize` clears the back-reference to the player under the lock
before unregistering. -/
theorem C5_callback_noop_after_uninitialize
    (cb : FBlackmagicMediaPlayerEventCallback) (pl : MediaPlayerData)
    (i : BlackmagicDesign.FFrameReceivedInfo) (t ps : Rat) :
    (cb.Uninitialize).1.OnFrameReceived pl i t ps = ((cb.Uninitialize).1, pl) := by
  have hmp : (cb.Uninitialize).1.MediaPlayer = false := by
    simp only [FBlackmagicMediaPlayerEventCallback.Uninitialize]
    split <;> simp
  simp [FBlackmagicMediaPlayerEventCallback.OnFrameReceived, hmp]

/-- C8: When the vendor runtime is not initialized or card usage is disallowed
in the current execution context, `Open` returns `false` synchronously, before
any channel registration or callback-object construction, and the player's
state (callback pointer, sample queues, current state) is unchanged. -/
theorem C8_open_fails_fast (p : FBlackmagicMediaPlayer) (Options : FMediaOptions)
    (blackmagicInitialized canUseBlackmagicCard superOpenSucceeds
      registrationSucceeds : Bool)
    (h : blackmagicInitialized = false ∨ canUseBlackmagicCard = false) :
    p.Open Options blackmagicInitialized canUseBlackmagicCard superOpenSucceeds
      registrationSucceeds = (p, false) := by
  rcases h with h | h
  · simp [FBlackmagicMediaPlayer.Open, h]
  · by_cases hb : blackmagicInitialized = false
    · simp [FBlackmagicMediaPlayer.Open, hb]
    · simp [FBlackmagicMediaPlayer.Open, hb, h]

/-- Witness for C8: a disallowed-card `Open` leaves the concrete player
untouched and fails. -/
theorem C8_open_fails_fast_witness :
    (false = false ∨ true = false) ∧
    playerPlayingW.Open optionsW false true true true = (playerPlayingW, false) :=
  ⟨Or.inl rfl, C8_open_fails_fast playerPlayingW optionsW false true true true (Or.inl rfl)⟩

/-- C9: `Close` is idempotent: the first call leaves no registered callback, and
a second call changes nothing, performs no second unregistration and no second
release of the callback object, and produces no error. -/
theorem C9_close_idempotent (p : FBlackmagicMediaPlayer) :
    (p.Close).1.EventCallback = none ∧
    ((p.Close).1).Close = ((p.Close).1, ([] : List TeardownAction)) := by
  cases hE : p.EventCallback <;> simp [FBlackmagicMediaPlayer.Close, hE]

/-- C10: The `Playing` state is entered only through `OnInitializationCompleted`
reporting success: a frame event leaves the state unchanged or sets `Error`;
`OnFrameFormatChanged` always sets `Error`; `OnShutdownCompleted` always sets
`Closed`; `OnInitializationCompleted b` sets `Playing` exactly when `b` holds;
and the consumer-side operations (`Uninitialize`, buffer maintenance, channel
`Initialize`) never set `Playing` either. -/
theorem C10_playing_only_from_initialization :
    (∀ (cb : FBlackmagicMediaPlayerEventCallback) (pl : MediaPlayerData)
        (i : BlackmagicDesign.FFrameReceivedInfo) (t ps : Rat),
      (cb.OnFrameReceived pl i t ps).1.MediaState = cb.MediaState ∨
      (cb.OnFrameReceived pl i t ps).1.MediaState = EMediaState.Error) ∧
    (∀ (cb : FBlackmagicMediaPlayerEventCallback) (fmt : BlackmagicDesign.FFormatInfo),
      (cb.OnFrameFormatChanged fmt).MediaState = EMediaState.Error) ∧
    (∀ cb : FBlackmagicMediaPlayerEventCallback,
      (cb.OnShutdownCompleted).MediaState = EMediaState.Closed) ∧
    (∀ (cb : FBlackmagicMediaPlayerEventCallback) (b : Bool),
      (cb.OnInitializationCompleted b).MediaState =
        if b then EMediaState.Playing else EMediaState.Error) ∧
    (∀ cb : FBlackmagicMediaPlayerEventCallback,
      (cb.Uninitialize).1.MediaState = cb.MediaState ∨
      (cb.Uninitialize).1.MediaState = EMediaState.Stopped) ∧
    (∀ (cb : FBlackmagicMediaPlayerEventCallback) (pl : MediaPlayerData),
      (cb.VerifyFrameDropCount_GameThread pl).callback.MediaState = cb.MediaState) ∧
    (∀ (cb : FBlackmagicMediaPlayerEventCallback)
        (co : BlackmagicDesign.FInputChannelOptions) (b : Bool) (ma mv : Int)
        (bs reg : Bool),
      (cb.Initialize co b ma mv bs reg).1.MediaState =
        if reg then EMediaState.Preparing else EMediaState.Error) := by
  refine ⟨?_, ?_, ?_, ?_, ?_, ?_, ?_⟩
  · intro cb pl i t ps
    exact (FBlackmagicMediaPlayerEventCallback.OnFrameReceived_fields cb pl i t ps).2.2.2
  · intro cb fmt
    simp [FBlackmagicMediaPlayerEventCallback.OnFrameFormatChanged]
  · intro cb
    simp [FBlackmagicMediaPlayerEventCallback.OnShutdownCompleted]
  · intro cb b
    simp [FBlackmagicMediaPlayerEventCallback.OnInitializationCompleted]
  · intro cb
    simp only [FBlackmagicMediaPlayerEventCallback.Uninitialize]
    split <;> simp
  · intro cb pl
    exact (FBlackmagicMediaPlayerEventCallback.verifyFrameDropCount_callback_fields cb pl).2.1
  · intro cb co b ma mv bs reg
    simp [FBlackmagicMediaPlayerEventCallback.Initialize]

/-- C7: For every `TickInput` that observes a state change: a change to
`Playing` sends exactly the ordered trio `TracksChanged`, `MediaOpened`,
`PlaybackResumed`; a change to `Error` sends `MediaOpenFailed` and tears the
channel down via `Close` before `TickInput` returns. -/
theorem C7_tick_transition_side_effects (p : FBlackmagicMediaPlayer) :
    (p.tickNewState ≠ p.data.CurrentState → p.tickNewState = EMediaState.Playing →
      p.TickInput = ({ p with data := { p.data with CurrentState := EMediaState.Playing } },
        [EMediaEvent.TracksChanged, EMediaEvent.MediaOpened, EMediaEvent.PlaybackResumed])) ∧
    (p.tickNewState ≠ p.data.CurrentState → p.tickNewState = EMediaState.Error →
      (p.TickInput).2 = [EMediaEvent.MediaOpenFailed] ∧
      (p.TickInput).1 =
        (FBlackmagicMediaPlayer.Close
          { p with data := { p.data with CurrentState := EMediaState.Error } }).1 ∧
      (p.TickInput).1.EventCallback = none) := by
  constructor
  · intro hne hplay
    rw [hplay] at hne
    simp only [FBlackmagicMediaPlayer.TickInput, hplay]
    rw [if_pos hne]
    simp
  · intro hne herror
    rw [herror] at hne
    simp only [FBlackmagicMediaPlayer.TickInput, herror]
    rw [if_pos hne, if_neg (by simp), if_pos trivial]
    refine ⟨rfl, rfl, ?_⟩
    cases hE : p.EventCallback <;> simp [FBlackmagicMediaPlayer.Close, hE]

/-- Witness for C7: the `Playing` trio on one concrete player and the
`MediaOpenFailed`-plus-teardown behavior on another. -/
theorem C7_tick_transition_side_effects_witness :
    (playerPlayingW.tickNewState ≠ playerPlayingW.data.CurrentState ∧
     playerPlayingW.tickNewState = EMediaState.Playing ∧
     playerPlayingW.TickInput =
       ({ playerPlayingW with
          data := { playerPlayingW.data with CurrentState := EMediaState.Playing } },
        [EMediaEvent.TracksChanged, EMediaEvent.MediaOpened, EMediaEvent.PlaybackResumed])) ∧
    (playerErrorW.tickNewState ≠ playerErrorW.data.CurrentState ∧
     playerErrorW.tickNewState = EMediaState.Error ∧
     (playerErrorW.TickInput).2 = [EMediaEvent.MediaOpenFailed] ∧
     (playerErrorW.TickInput).1.EventCallback = none) :=
  ⟨⟨by decide, by decide,
    (C7_tick_transition_side_effects playerPlayingW).1 (by decide) (by decide)⟩,
   ⟨by decide, by decide,
    ((C7_tick_transition_side_effects playerErrorW).2 (by decide) (by decide)).1,
    ((C7_tick_transition_side_effects playerErrorW).2 (by decide) (by decide)).2.2⟩⟩

/-- C1: For every sequence of enqueue attempts and maintenance steps with
configured soft maxima `MaxNumAudioFrameBuffer` / `MaxNumVideoFrameBuffer`
(assumed non-negative), after a buffer-maintenance step
(`VerifyFrameDropCount_GameThread`) each queue length is at most its soft
maximum; and a drop counter is incremented at an enqueue attempt only when the
queue occupancy at that attempt was at the hard capacity `2 * Max` (for
interlaced video counting one extra slot for the odd field, and occupancy
never exceeding the hard capacity when starting below it), in which case the
attempt enqueues nothing for that media kind. The second and third conjunct
quantify over an arbitrary pre-state and hence over every attempt of every
sequence. -/
theorem C1_buffer_bound_and_drop_accounting :
    (∀ (s : FBlackmagicMediaPlayerEventCallback × MediaPlayerData)
        (ops : List PipelineOp),
      0 ≤ s.1.MaxNumAudioFrameBuffer → 0 ≤ s.1.MaxNumVideoFrameBuffer →
      (((runPipeline s (ops ++ [PipelineOp.maintain])).2.AudioSamples.length : Int) ≤
          s.1.MaxNumAudioFrameBuffer ∧
       ((runPipeline s (ops ++ [PipelineOp.maintain])).2.VideoSamples.length : Int) ≤
          s.1.MaxNumVideoFrameBuffer)) ∧
    (∀ (cb : FBlackmagicMediaPlayerEventCallback) (pl : MediaPlayerData)
        (i : BlackmagicDesign.FFrameReceivedInfo) (t ps : Rat),
      ((cb.OnFrameReceived pl i t ps).1.AudioFrameDropCount ≠ cb.AudioFrameDropCount →
        (pl.AudioSamples.length : Int) ≥ cb.MaxNumAudioFrameBuffer * 2 ∧
        (cb.OnFrameReceived pl i t ps).2.AudioSamples = pl.AudioSamples) ∧
      ((cb.OnFrameReceived pl i t ps).1.VideoFrameDropCount ≠ cb.VideoFrameDropCount →
        (pl.VideoSamples.length : Int) +
          (if i.FieldDominance = BlackmagicDesign.EFieldDominance.Interlaced then 1 else 0) ≥
          cb.MaxNumVideoFrameBuffer * 2 ∧
        (cb.OnFrameReceived pl i t ps).2.VideoSamples = pl.VideoSamples)) := by
  constructor
  · intro s ops hA hV
    have hmax := runPipeline_max ops s
    have hsplit : runPipeline s (ops ++ [PipelineOp.maintain]) =
        stepPipeline (runPipeline s ops) PipelineOp.maintain := by
      simp [runPipeline, List.foldl_append]
    rw [hsplit]
    have hb := FBlackmagicMediaPlayerEventCallback.verifyFrameDropCount_lengths
      (runPipeline s ops).1 (runPipeline s ops).2
      (by rw [hmax.1]; exact hA) (by rw [hmax.2]; exact hV)
    exact ⟨by rw [← hmax.1]; exact hb.1, by rw [← hmax.2]; exact hb.2⟩
  · intro cb pl i t ps
    exact ⟨fun h => FBlackmagicMediaPlayerEventCallback.OnFrameReceived_audio_drop cb pl i t ps h,
      fun h => FBlackmagicMediaPlayerEventCallback.OnFrameReceived_video_drop cb pl i t ps h⟩

/-- Witness for C1: a maintenance step trims three queued samples down to the
soft maximum 2, and with hard capacity 0 a frame carrying audio and interlaced
video increments both drop counters while enqueuing nothing. -/
theorem C1_buffer_bound_and_drop_accounting_witness :
    ((0 : Int) ≤ (cbW, plW).1.MaxNumAudioFrameBuffer ∧
     (0 : Int) ≤ (cbW, plW).1.MaxNumVideoFrameBuffer ∧
     (((runPipeline (cbW, plW) ([] ++ [PipelineOp.maintain])).2.AudioSamples.length : Int) ≤
        (cbW, plW).1.MaxNumAudioFrameBuffer ∧
      ((runPipeline (cbW, plW) ([] ++ [PipelineOp.maintain])).2.VideoSamples.length : Int) ≤
        (cbW, plW).1.MaxNumVideoFrameBuffer)) ∧
    ((cbZeroW.OnFrameReceived plEmptyW infoW 0 0).1.AudioFrameDropCount ≠
        cbZeroW.AudioFrameDropCount ∧
     ((plEmptyW.AudioSamples.length : Int) ≥ cbZeroW.MaxNumAudioFrameBuffer * 2 ∧
      (cbZeroW.OnFrameReceived plEmptyW infoW 0 0).2.AudioSamples = plEmptyW.AudioSamples) ∧
     ((cbZeroW.OnFrameReceived plEmptyW infoW 0 0).1.VideoFrameDropCount ≠
        cbZeroW.VideoFrameDropCount) ∧
     ((plEmptyW.VideoSamples.length : Int) +
        (if infoW.FieldDominance = BlackmagicDesign.EFieldDominance.Interlaced then 1 else 0) ≥
        cbZeroW.MaxNumVideoFrameBuffer * 2 ∧
      (cbZeroW.OnFrameReceived plEmptyW infoW 0 0).2.VideoSamples = plEmptyW.VideoSamples)) :=
  ⟨⟨by decide, by decide,
    C1_buffer_bound_and_drop_accounting.1 (cbW, plW) [] (by decide) (by decide)⟩,
   by decide,
   (C1_buffer_bound_and_drop_accounting.2 cbZeroW plEmptyW infoW 0 0).1 (by decide),
   by decide,
   (C1_buffer_bound_and_drop_accounting.2 cbZeroW plEmptyW infoW 0 0).2 (by decide)⟩

/-- C6: The drop counters reset to zero when read: with drop-count logging
enabled, `VerifyFrameDropCount_GameThread` reports the popped overflow plus
the accumulated drops and zeroes both counters, so an immediately following
call with no intervening drops and no queue overflow reports 0 for both media
kinds. -/
theorem C6_drop_counters_reset_on_read
    (cb : FBlackmagicMediaPlayerEventCallback) (pl : MediaPlayerData)
    (hA : 0 ≤ cb.MaxNumAudioFrameBuffer) (hV : 0 ≤ cb.MaxNumVideoFrameBuffer)
    (hlog : pl.bVerifyFrameDropCount = true) :
    (cb.VerifyFrameDropCount_GameThread pl).AudioOverflowCount =
      max ((pl.AudioSamples.length : Int) - cb.MaxNumAudioFrameBuffer) 0 +
        cb.AudioFrameDropCount ∧
    (cb.VerifyFrameDropCount_GameThread pl).VideoOverflowCount =
      max ((pl.VideoSamples.length : Int) - cb.MaxNumVideoFrameBuffer) 0 +
        cb.VideoFrameDropCount ∧
    ((cb.VerifyFrameDropCount_GameThread pl).callback.VerifyFrameDropCount_GameThread
        (cb.VerifyFrameDropCount_GameThread pl).player).AudioOverflowCount = 0 ∧
    ((cb.VerifyFrameDropCount_GameThread pl).callback.VerifyFrameDropCount_GameThread
        (cb.VerifyFrameDropCount_GameThread pl).player).VideoOverflowCount = 0 := by
  have h1 := FBlackmagicMediaPlayerEventCallback.verifyFrameDropCount_counters cb pl hlog
  have hf := FBlackmagicMediaPlayerEventCallback.verifyFrameDropCount_callback_fields cb pl
  have hlen := FBlackmagicMediaPlayerEventCallback.verifyFrameDropCount_lengths cb pl hA hV
  have hlog2 : (cb.VerifyFrameDropCount_GameThread pl).player.bVerifyFrameDropCount = true := by
    rw [hf.2.2.2.2]; exact hlog
  have h2 := FBlackmagicMediaPlayerEventCallback.verifyFrameDropCount_counters
    (cb.VerifyFrameDropCount_GameThread pl).callback
    (cb.VerifyFrameDropCount_GameThread pl).player hlog2
  refine ⟨h1.2.2.1, h1.2.2.2, ?_, ?_⟩
  · rw [h2.2.2.1, h1.1, hf.2.2.1]
    have := hlen.1
    omega
  · rw [h2.2.2.2, h1.2.1, hf.2.2.2.1]
    have := hlen.2
    omega

/-- Witness for C6: five accumulated audio drops and seven video drops are
reported by a first maintenance call on a concrete state, and the immediately
following call reports zero for both kinds. -/
theorem C6_drop_counters_reset_on_read_witness :
    ((0 : Int) ≤ cbDropsW.MaxNumAudioFrameBuffer ∧
     (0 : Int) ≤ cbDropsW.MaxNumVideoFrameBuffer ∧
     plW.bVerifyFrameDropCount = true) ∧
    ((cbDropsW.VerifyFrameDropCount_GameThread plW).AudioOverflowCount =
      max ((plW.AudioSamples.length : Int) - cbDropsW.MaxNumAudioFrameBuffer) 0 +
        cbDropsW.AudioFrameDropCount ∧
     ((cbDropsW.VerifyFrameDropCount_GameThread plW).callback.VerifyFrameDropCount_GameThread
        (cbDropsW.VerifyFrameDropCount_GameThread plW).player).AudioOverflowCount = 0 ∧
     ((cbDropsW.VerifyFrameDropCount_GameThread plW).callback.VerifyFrameDropCount_GameThread
        (cbDropsW.VerifyFrameDropCount_GameThread plW).player).VideoOverflowCount = 0) :=
  ⟨⟨by decide, by decide, by decide⟩,
   (C6_drop_counters_reset_on_read cbDropsW plW (by decide) (by decide) (by decide)).1,
   (C6_drop_counters_reset_on_read cbDropsW plW (by decide) (by decide) (by decide)).2.2.1,
   (C6_drop_counters_reset_on_read cbDropsW plW (by decide) (by decide) (by decide)).2.2.2⟩

/-- C3: An interlaced video event processed in the `Playing` state with queue
occupancy below the tolerated capacity produces exactly two video samples, an
even-field and an odd-field sample, whose presentation times differ by exactly
one interval of the active video frame rate and whose timecodes, when the
event carries one, differ by exactly one frame. -/
theorem C3_interlaced_field_doubling
    (cb : FBlackmagicMediaPlayerEventCallback) (pl : MediaPlayerData)
    (i : BlackmagicDesign.FFrameReceivedInfo) (t ps : Rat)
    (hmp : cb.MediaPlayer = true)
    (hst : cb.MediaState = EMediaState.Playing)
    (hin : i.bHasInputSource = true)
    (hvb : i.VideoBuffer = true)
    (hfd : i.FieldDominance = BlackmagicDesign.EFieldDominance.Interlaced)
    (hocc : (pl.VideoSamples.length : Int) + 1 < cb.MaxNumVideoFrameBuffer * 2) :
    ∃ e o : FBlackmagicMediaTextureSample,
      (cb.OnFrameReceived pl i t ps).2.VideoSamples = pl.VideoSamples ++ [e, o] ∧
      e.evenOddLine = some true ∧ o.evenOddLine = some false ∧
      o.Time = e.Time + pl.VideoFrameRate.AsInterval ∧
      (i.bHaveTimecode = true →
        ∃ tc : FTimecode, e.Timecode = some tc ∧
          o.Timecode = some { tc with Frames := tc.Frames + 1 }) := by
  simp only [FBlackmagicMediaPlayerEventCallback.OnFrameReceived]
  rw [if_neg (by simp [hmp]), if_neg (by simp [hin]), if_pos (by simp [hst])]
  exact FBlackmagicMediaPlayerEventCallback.processPlayingFrame_interlaced _ pl i ps _
    rfl hvb hfd hocc

/-- Witness for C3 on a concrete interlaced, timecoded frame event. -/
theorem C3_interlaced_field_doubling_witness :
    (cbW.MediaPlayer = true ∧ cbW.MediaState = EMediaState.Playing ∧
     infoW.bHasInputSource = true ∧ infoW.VideoBuffer = true ∧
     infoW.FieldDominance = BlackmagicDesign.EFieldDominance.Interlaced ∧
     ((plNoVideoW.VideoSamples.length : Int) + 1 < cbW.MaxNumVideoFrameBuffer * 2)) ∧
    (∃ e o : FBlackmagicMediaTextureSample,
      (cbW.OnFrameReceived plNoVideoW infoW 0 0).2.VideoSamples =
        plNoVideoW.VideoSamples ++ [e, o] ∧
      e.evenOddLine = some true ∧ o.evenOddLine = some false ∧
      o.Time = e.Time + plNoVideoW.VideoFrameRate.AsInterval ∧
      (infoW.bHaveTimecode = true →
        ∃ tc : FTimecode, e.Timecode = some tc ∧
          o.Timecode = some { tc with Frames := tc.Frames + 1 })) :=
  ⟨⟨by decide, by decide, by decide, by decide, by decide, by decide⟩,
   C3_interlaced_field_doubling cbW plNoVideoW infoW 0 0
     (by decide) (by decide) (by decide) (by decide) (by decide) (by decide)⟩

/-- C4: For an audio buffer of B bytes enqueued in the `Playing` state the
created audio sample holds B / 4 samples with the event's channel count and
sample rate — but the audio track format subsequently reported by
`UpdateAudioTrackFormat` carries `BitsPerSample = 4`, the value of the
source's `sizeof(int32)` (a byte count, line 258), not the 32 bits per sample
the claim states: evaluated at a concrete 1024-byte, 2-channel, 48 kHz event,
the reported bit depth is 4 and not 32. -/
theorem C4_audio_bit_depth_code_bug :
    ((cbW.OnFrameReceived plNoAudioW infoAudioOnlyW 0 0).2.AudioSamples.map
      (fun s => (s.NumSamples, s.NumChannels, s.SampleRate))) = [(1024 / 4, 2, 48000)] ∧
    FBlackmagicMediaPlayerEventCallback.UpdateAudioTrackFormat
        (cbW.OnFrameReceived plNoAudioW infoAudioOnlyW 0 0).1 =
      { BitsPerSample := 4, NumChannels := 2, SampleRate := 48000 } ∧
    ¬ (FBlackmagicMediaPlayerEventCallback.UpdateAudioTrackFormat
        (cbW.OnFrameReceived plNoAudioW infoAudioOnlyW 0 0).1).BitsPerSample = 32 := by
  decide

/-- C2: Over every monotone stream of no-signal events (no input source, no
audio payload) delivered to a live callback with no prior valid frame, the
media state is `Error` after a prefix only if some event of that prefix
happened at least 2.0 seconds of wall time after the first event — never
before; and if a valid frame was previously received, a single no-signal event
sets the state to `Error` immediately. -/
theorem C2_no_signal_timeout :
    (∀ (e0 : FrameEvent) (rest pre suf : List FrameEvent)
        (cb : FBlackmagicMediaPlayerEventCallback) (pl : MediaPlayerData),
      (∀ e ∈ e0 :: rest, NoSignalEvent e) →
      List.Pairwise (fun x y : FrameEvent => x.2.1 ≤ y.2.1) (e0 :: rest) →
      cb.MediaPlayer = true →
      cb.bReceivedValidFrame = false →
      cb.MediaState ≠ EMediaState.Error →
      cb.LastHasFrameTime = 0 →
      e0 :: rest = pre ++ suf →
      (runFrames (cb, pl) pre).1.MediaState = EMediaState.Error →
      ∃ e ∈ pre, e0.2.1 + 2 ≤ e.2.1) ∧
    (∀ (cb : FBlackmagicMediaPlayerEventCallback) (pl : MediaPlayerData)
        (i : BlackmagicDesign.FFrameReceivedInfo) (t ps : Rat),
      cb.MediaPlayer = true →
      cb.bReceivedValidFrame = true →
      i.bHasInputSource = false →
      i.AudioBuffer = false →
      (cb.OnFrameReceived pl i t ps).1.MediaState = EMediaState.Error) := by
  constructor
  · intro e0 rest pre suf cb pl hns hpw hmp hvalid hstate hlast happ herr
    cases pre with
    | nil =>
      simp only [runFrames, List.foldl_nil] at herr
      exact absurd herr hstate
    | cons p pre =>
      rw [List.cons_append] at happ
      injection happ with h1 h2
      subst h1
      rw [runFrames_cons] at herr
      have hnse : NoSignalEvent e0 := hns e0 (by simp)
      have hstep : cb.OnFrameReceived pl e0.1 e0.2.1 e0.2.2 =
          (FBlackmagicMediaPlayerEventCallback.noSignalHeartbeat cb e0.2.1, pl) := by
        simp [FBlackmagicMediaPlayerEventCallback.OnFrameReceived, hmp, hnse.1, hnse.2]
      have hlt10 : cb.LastHasFrameTime < (1 : Rat) / 10 := by
        rw [hlast]; norm_num
      have hcb1 : FBlackmagicMediaPlayerEventCallback.noSignalHeartbeat cb e0.2.1 =
          { cb with LastHasFrameTime := e0.2.1 } := by
        simp only [FBlackmagicMediaPlayerEventCallback.noSignalHeartbeat]
        rw [if_pos hlt10, if_neg (by simp [hvalid])]
      rw [hstep, hcb1] at herr
      have hnspre : ∀ x ∈ pre, NoSignalEvent x := by
        intro x hx
        apply hns
        rw [h2]
        exact List.mem_cons_of_mem _ (List.mem_append_left _ hx)
      have hpwpre : List.Pairwise (fun x y : FrameEvent => x.2.1 ≤ y.2.1) pre := by
        have hr := (List.pairwise_cons.mp hpw).2
        rw [h2] at hr
        exact hr.sublist (List.sublist_append_left pre suf)
      have hhead : ∀ x ∈ pre, e0.2.1 ≤ x.2.1 := by
        intro x hx
        apply (List.pairwise_cons.mp hpw).1
        rw [h2]
        exact List.mem_append_left _ hx
      rcases runFrames_noSignal_aux pre { cb with LastHasFrameTime := e0.2.1 } pl e0.2.1
          hnspre hpwpre (fun x hx => hhead x hx) hvalid (le_refl _) herr with
        hc | ⟨x, hx, hxlt⟩
      · exact absurd hc hstate
      · exact ⟨x, List.mem_cons_of_mem _ hx, le_of_lt hxlt⟩
  · intro cb pl i t ps hmp hvalid h1 h2
    have hstep : cb.OnFrameReceived pl i t ps =
        (FBlackmagicMediaPlayerEventCallback.noSignalHeartbeat cb t, pl) := by
      simp [FBlackmagicMediaPlayerEventCallback.OnFrameReceived, hmp, h1, h2]
    rw [hstep]
    show (FBlackmagicMediaPlayerEventCallback.noSignalHeartbeat cb t).MediaState =
      EMediaState.Error
    simp only [FBlackmagicMediaPlayerEventCallback.noSignalHeartbeat]
    by_cases hc : cb.LastHasFrameTime < (1 : Rat) / 10
    · rw [if_pos hc, if_pos (Or.inl hvalid)]
    · rw [if_neg hc, if_pos (Or.inl hvalid)]

attribute [local semireducible] Rat.add Rat.sub Rat.inv Rat.mul

/-- A first no-signal heartbeat at one second of wall time. -/
def noSignalEvent1W : FrameEvent := (noSignalInfoW, 1, 0)

/-- A second no-signal heartbeat at 3.5 seconds of wall time. -/
def noSignalEvent2W : FrameEvent := (noSignalInfoW, 7 / 2, 0)

/-- `cbW` after a valid frame has been received. -/
def cbValidW : FBlackmagicMediaPlayerEventCallback :=
  { cbW with bReceivedValidFrame := true }

/-- Witness for C2: the concrete no-signal events at times 1 and 3.5 drive the
state to `Error`, and indeed one of them is at least two seconds after the
first; with a valid frame already seen, one no-signal event errors at once. -/
theorem C2_no_signal_timeout_witness :
    ((∀ e ∈ [noSignalEvent1W, noSignalEvent2W], NoSignalEvent e) ∧
     List.Pairwise (fun x y : FrameEvent => x.2.1 ≤ y.2.1)
       [noSignalEvent1W, noSignalEvent2W] ∧
     cbW.MediaPlayer = true ∧
     cbW.bReceivedValidFrame = false ∧
     cbW.MediaState ≠ EMediaState.Error ∧
     cbW.LastHasFrameTime = 0 ∧
     [noSignalEvent1W, noSignalEvent2W] = [noSignalEvent1W, noSignalEvent2W] ++ [] ∧
     (runFrames (cbW, plW) [noSignalEvent1W, noSignalEvent2W]).1.MediaState =
       EMediaState.Error ∧
     (∃ e ∈ [noSignalEvent1W, noSignalEvent2W], noSignalEvent1W.2.1 + 2 ≤ e.2.1)) ∧
    (cbValidW.MediaPlayer = true ∧
     cbValidW.bReceivedValidFrame = true ∧
     noSignalInfoW.bHasInputSource = false ∧
     noSignalInfoW.AudioBuffer = false ∧
     (cbValidW.OnFrameReceived plW noSignalInfoW 0 0).1.MediaState = EMediaState.Error) :=
  ⟨⟨by decide, by decide, by decide, by decide, by decide, by decide, by decide, by decide,
    C2_no_signal_timeout.1 noSignalEvent1W [noSignalEvent2W]
      [noSignalEvent1W, noSignalEvent2W] [] cbW plW (by decide) (by decide) (by decide)
      (by decide) (by decide) (by decide) (by decide) (by decide)⟩,
   ⟨by decide, by decide, by decide, by decide,
    C2_no_signal_timeout.2 cbValidW plW noSignalInfoW 0 0 (by decide) (by decide)
      (by decide) (by decide)⟩⟩

end BlackmagicMedia
